import Mathlib

/-!
Formal model of the thermocouples package core engine
(src/thermocouples/core.py and src/thermocouples/registry.py),
with numeric data transcribed from the per-type coefficient modules.

Machine floats of the source are modelled as exact rationals; decimal and
scientific literals are carried over verbatim, which denotes the exact
decimal value the source text writes.
-/

/-- A range-table entry: a closed interval (lo, hi) paired with the
polynomial coefficient list, low degree first. Mirrors the
`((lo, hi), [c0, c1, ...])` tuples of the Python data modules. -/
abbrev Entry : Type := (ℚ × ℚ) × List ℚ

/-- The error taxonomy of the package, carrying exactly the variable data
that the Python exception messages interpolate:
out-of-range carries the offending value and the type name
(ValueError in `_select_coeffs`); notImplemented carries the quantity
wording and the type name (NotImplementedError of the optional-table
guards); unknownType carries the upper-cased code and the
available-codes listing (ValueError in `get_thermocouple`). -/
inductive TCError : Type where
  | outOfRange (value : ℚ) (typeName : String)
  | notImplemented (quantity : String) (typeName : String)
  | unknownType (code : String) (available : String)
deriving DecidableEq, Repr

/-- Model of `ThermocoupleType.__init__` state after normalisation:
`temp_to_seebeck` and `temp_to_dsdt` are stored with `or []` applied
(None becomes the empty list), the four leg tables are stored as given
(None stays None, modelled by Option), and the four optional correction
closures are stored as optional rational functions. -/
structure ThermocoupleType : Type where
  name : String
  temp_to_microvolt : List Entry
  microvolt_to_temp : List Entry
  temp_to_seebeck : List Entry
  temp_to_dsdt : List Entry
  temp_to_microvolt_pos_leg : Option (List Entry)
  temp_to_microvolt_neg_leg : Option (List Entry)
  temp_to_seebeck_pos_leg : Option (List Entry)
  temp_to_seebeck_neg_leg : Option (List Entry)
  microvolt_expo_function : Option (ℚ → ℚ)
  seebeck_expo_function : Option (ℚ → ℚ)
  dsdt_expo_function : Option (ℚ → ℚ)
  microvolt_neg_leg_expo_function : Option (ℚ → ℚ)

/-- The constructor of `ThermocoupleType`: optional seebeck and dsdt table
arguments are normalised with `x or []` (None becomes the empty list);
every other argument is stored unchanged. -/
def ThermocoupleType.init
    (name : String)
    (temp_to_microvolt : List Entry)
    (microvolt_to_temp : List Entry)
    (temp_to_seebeck : Option (List Entry))
    (temp_to_dsdt : Option (List Entry))
    (temp_to_microvolt_pos_leg : Option (List Entry))
    (temp_to_microvolt_neg_leg : Option (List Entry))
    (temp_to_seebeck_pos_leg : Option (List Entry))
    (temp_to_seebeck_neg_leg : Option (List Entry))
    (microvolt_expo_function : Option (ℚ → ℚ))
    (seebeck_expo_function : Option (ℚ → ℚ))
    (dsdt_expo_function : Option (ℚ → ℚ))
    (microvolt_neg_leg_expo_function : Option (ℚ → ℚ)) : ThermocoupleType :=
  { name := name
    temp_to_microvolt := temp_to_microvolt
    microvolt_to_temp := microvolt_to_temp
    temp_to_seebeck := temp_to_seebeck.getD []
    temp_to_dsdt := temp_to_dsdt.getD []
    temp_to_microvolt_pos_leg := temp_to_microvolt_pos_leg
    temp_to_microvolt_neg_leg := temp_to_microvolt_neg_leg
    temp_to_seebeck_pos_leg := temp_to_seebeck_pos_leg
    temp_to_seebeck_neg_leg := temp_to_seebeck_neg_leg
    microvolt_expo_function := microvolt_expo_function
    seebeck_expo_function := seebeck_expo_function
    dsdt_expo_function := dsdt_expo_function
    microvolt_neg_leg_expo_function := microvolt_neg_leg_expo_function }

/-- Python falsiness of an optional list field (`if not self._field`):
true when the field is None or holds the empty list. -/
def optFalsy (o : Option (List Entry)) : Bool :=
  match o with
  | none => true
  | some l => l.isEmpty

/-- Model of `ThermocoupleType._select_coeffs`: scan the entries in order
and return the coefficient list of the first entry whose closed interval
contains x; raise the out-of-range ValueError when none does. -/
def select_coeffs (name : String) (x : ℚ) : List Entry → Except TCError (List ℚ)
  | [] => .error (.outOfRange x name)
  | ((lo, hi), coeffs) :: rest =>
      if lo ≤ x ∧ x ≤ hi then .ok coeffs else select_coeffs name x rest

/-- Model of `ThermocoupleType._polyval`:
`sum(c * (x**i) for i, c in enumerate(coeffs))`. -/
def polyval (coeffs : List ℚ) (x : ℚ) : ℚ :=
  (coeffs.enum.map (fun p => p.2 * x ^ p.1)).sum

/-- Model of `ThermocoupleType.temperature_to_voltage`: select forward
coefficients at temp_c, evaluate the polynomial, add the microvolt
correction closure when present, divide by 1e6. -/
def ThermocoupleType.temperature_to_voltage (tc : ThermocoupleType) (temp_c : ℚ) :
    Except TCError ℚ := do
  let coeffs ← select_coeffs tc.name temp_c tc.temp_to_microvolt
  let result := polyval coeffs temp_c
  let result := match tc.microvolt_expo_function with
    | some f => result + f temp_c
    | none => result
  return result / 1000000

/-- Model of `ThermocoupleType.voltage_to_temperature`: convert volts to
microvolts, select inverse coefficients, evaluate the polynomial,
return directly (no correction, no scaling). -/
def ThermocoupleType.voltage_to_temperature (tc : ThermocoupleType) (v : ℚ) :
    Except TCError ℚ := do
  let microvolt := v * 1000000
  let coeffs ← select_coeffs tc.name microvolt tc.microvolt_to_temp
  return polyval coeffs microvolt

/-- Model of `ThermocoupleType.temperature_to_seebeck`: guard on the
falsiness of the stored seebeck table, then select, evaluate, and add
the seebeck correction closure when present; no scaling. -/
def ThermocoupleType.temperature_to_seebeck (tc : ThermocoupleType) (temp_c : ℚ) :
    Except TCError ℚ := do
  if tc.temp_to_seebeck.isEmpty then
    throw (.notImplemented "Seebeck coefficient" tc.name)
  let coeffs ← select_coeffs tc.name temp_c tc.temp_to_seebeck
  let result := polyval coeffs temp_c
  let result := match tc.seebeck_expo_function with
    | some f => result + f temp_c
    | none => result
  return result

/-- Model of `ThermocoupleType.temperature_to_dsdt`: symmetric to the
seebeck case, using the dsdt table and its correction closure. -/
def ThermocoupleType.temperature_to_dsdt (tc : ThermocoupleType) (temp_c : ℚ) :
    Except TCError ℚ := do
  if tc.temp_to_dsdt.isEmpty then
    throw (.notImplemented "dSeebeck/dT" tc.name)
  let coeffs ← select_coeffs tc.name temp_c tc.temp_to_dsdt
  let result := polyval coeffs temp_c
  let result := match tc.dsdt_expo_function with
    | some f => result + f temp_c
    | none => result
  return result

/-- Model of `ThermocoupleType.temperature_to_volt_pos_leg`: guard on
falsiness of the optional positive-leg table, select, evaluate, divide
by 1e6; no correction closure. -/
def ThermocoupleType.temperature_to_volt_pos_leg (tc : ThermocoupleType) (temp_c : ℚ) :
    Except TCError ℚ := do
  if optFalsy tc.temp_to_microvolt_pos_leg then
    throw (.notImplemented "Thermovoltage positive leg" tc.name)
  let coeffs ← select_coeffs tc.name temp_c (tc.temp_to_microvolt_pos_leg.getD [])
  let result := polyval coeffs temp_c
  return result / 1000000

/-- Model of `ThermocoupleType.temperature_to_volt_neg_leg`: guard on
falsiness of the optional negative-leg table, select, evaluate, add the
negative-leg correction closure when present, divide by 1e6. -/
def ThermocoupleType.temperature_to_volt_neg_leg (tc : ThermocoupleType) (temp_c : ℚ) :
    Except TCError ℚ := do
  if optFalsy tc.temp_to_microvolt_neg_leg then
    throw (.notImplemented "Thermovoltage negative leg" tc.name)
  let coeffs ← select_coeffs tc.name temp_c (tc.temp_to_microvolt_neg_leg.getD [])
  let result := polyval coeffs temp_c
  let result := match tc.microvolt_neg_leg_expo_function with
    | some f => result + f temp_c
    | none => result
  return result / 1000000

/-- Model of `ThermocoupleType.temperature_to_seebeck_pos_leg`. -/
def ThermocoupleType.temperature_to_seebeck_pos_leg (tc : ThermocoupleType) (temp_c : ℚ) :
    Except TCError ℚ := do
  if optFalsy tc.temp_to_seebeck_pos_leg then
    throw (.notImplemented "Seebeck coefficient positive leg" tc.name)
  let coeffs ← select_coeffs tc.name temp_c (tc.temp_to_seebeck_pos_leg.getD [])
  return polyval coeffs temp_c

/-- Model of `ThermocoupleType.temperature_to_seebeck_neg_leg`. -/
def ThermocoupleType.temperature_to_seebeck_neg_leg (tc : ThermocoupleType) (temp_c : ℚ) :
    Except TCError ℚ := do
  if optFalsy tc.temp_to_seebeck_neg_leg then
    throw (.notImplemented "Seebeck coefficient negative leg" tc.name)
  let coeffs ← select_coeffs tc.name temp_c (tc.temp_to_seebeck_neg_leg.getD [])
  return polyval coeffs temp_c

/-- Model of `ThermocoupleType.voltage_to_temperature_with_reference`:
cold-junction compensation. -/
def ThermocoupleType.voltage_to_temperature_with_reference
    (tc : ThermocoupleType) (v_measured : ℚ) (t_ref : ℚ) : Except TCError ℚ := do
  let v_ref ← tc.temperature_to_voltage t_ref
  let v_total := v_measured + v_ref
  let result ← tc.voltage_to_temperature v_total
  return result

/-- Model of the test-suite round trip: convert a temperature to a
voltage and that voltage back to a temperature. -/
def round_trip (tc : ThermocoupleType) (t : ℚ) : Except TCError ℚ := do
  let voltage ← tc.temperature_to_voltage t
  tc.voltage_to_temperature voltage

/-! ## Per-type coefficient data

The six modules type_b.py, type_j.py, type_n.py, type_r.py, type_s.py and
type_t.py are present in the repository and their tables are transcribed
verbatim below. The modules type_k.py and type_e.py are imported by
registry.py but are not present; their constants are modelled from the
spec after the data section. -/
/-- Coefficient tables transcribed from type_b.py. -/
def B_TEMP_TO_MICROVOLT : List Entry := [
  ((0, 630.615), [0.000000000000e00, -2.465081834600e-01, 5.904042117100e-03, -1.325793163600e-06, 1.566829190100e-09, -1.694452924000e-12, 6.299034709400e-16]),
  ((630.615, 1820), [-3.893816862100e03, 2.857174747000e-01, -8.488510478500e-05, 1.578528016400e-04, -1.683534486400e-07, 1.110979401300e-10, -4.451543103300e-14, 9.897564082100e-18, -9.379133028900e-22])
]

def B_MICROVOLT_TO_TEMP : List Entry := [
  ((291, 2431), [9.842332100e01, 6.997150000e-01, -8.476530400e-04, 1.005264400e-06, -8.334595200e-10, 4.550854200e-13, -1.552303700e-16, 2.988675000e-20, -2.474286000e-24]),
  ((2431, 13820), [2.131507100e02, 2.851050400e-01, -5.274288700e-05, 9.916080400e-09, -1.296530300e-12, 1.119587000e-16, -6.062519900e-21, 1.866169600e-25, -2.487858500e-30])
]

def B_TEMP_TO_SEEBECK : List Entry := [
  ((0, 630.615), [-2.465081834600e-01, 1.180804234200e-02, -3.977379490800e-06, 6.267316760400e-09, -8.472264620000e-12, 3.779420845640e-15]),
  ((630.615, 1820), [2.857174747000e-01, -1.697702095700e-04, 4.735584049200e-04, -6.734137945600e-07, 5.554897006500e-10, -2.670925859800e-13, 6.928304857470e-17, -7.503266423120e-21])
]

def B_TEMP_TO_DSDT : List Entry := [
  ((0, 630.615), [1.180804234200e-02, -7.954758981600e-06, 1.880195028120e-08, -3.388905848000e-11, 1.889710422820e-14]),
  ((630.615, 1820), [-1.697702095700e-04, 9.471168098400e-04, -2.020241383680e-06, 2.221958802600e-09, -1.335462929900e-12, 4.156982914482e-16, -5.252586738384e-20])
]

def B_TEMP_TO_MICROVOLT_POS_LEG : List Entry := [
  ((0, 630.615), [0.000000000000e00, 4.822787568700e00, 1.565116570900e-02, -2.223379788200e-05, 2.833324407400e-08, -2.025894044700e-11, 6.148870509600e-15]),
  ((630.615, 1768.1), [-7.9680432282e3, 6.39411102130e1, -1.7102421410e-1, 3.05557825270e-4, -3.2105744492e-7, 2.09091027940e-10, -8.2335825426e-14, 1.78228415150e-17, -1.6187074187e-21])
]

def B_TEMP_TO_MICROVOLT_NEG_LEG : List Entry := [
  ((0, 630.615), [0.000000000000e00, 5.069295752200e00, 9.747123532000e-03, -2.090906471800e-05, 2.676641488300e-08, -1.856448752300e-11, 5.518967038600e-15]),
  ((630.615, 1768.1), [-4.074226366200e03, 3.536936274300e01, -8.613910931500e-02, 1.477050236200e-04, -1.527039962900e-07, 9.799308790500e-11, -3.782039439300e-14, 7.925277432800e-18, -6.807941157800e-22])
]

def B_TEMP_TO_SEEBECK_POS_LEG : List Entry := [
  ((0, 630.615), [4.822787568700e00, 3.130233141800e-02, -6.670139364600e-05, 1.133329762960e-07, -1.012947022350e-10, 3.689322305760e-14]),
  ((630.615, 1768.1), [6.39411102130e1, -3.4204842820e-1, 9.16673475810e-4, -1.28422977968e-6, 1.04545513970e-9, -4.94014952556e-13, 1.42582732120e-16, -1.29496593496e-20])
]

def B_TEMP_TO_SEEBECK_NEG_LEG : List Entry := [
  ((0, 630.615), [5.069295752200e00, 1.949424706400e-02, -6.272719415400e-05, 1.070656595320e-07, -9.282243761500e-11, 3.311380223160e-14]),
  ((630.615, 1768.1), [3.536936274300e01, -1.722782186300e-01, 4.431150708600e-04, -6.108159851600e-07, 4.899654395250e-10, -2.269223663580e-13, 5.547694203960e-17, -5.446352926240e-21])
]

/-- Coefficient tables transcribed from type_j.py. -/
def J_TEMP_TO_MICROVOLT : List Entry := [
  ((-210, 760), [0.000000000000e00, 5.038118781500e01, 3.047583693000e-02, -8.568106572000e-05, 1.322819529500e-07, -1.705295833700e-10, 2.094809069700e-13, -1.253839533600e-16, 1.563172569700e-20]),
  ((760, 1200), [2.964562568100e05, -1.497612778600e03, 3.178710392400e00, -3.184768670100e-03, 1.572081900400e-06, -3.069136905600e-10])
]

def J_MICROVOLT_TO_TEMP : List Entry := [
  ((-8095, 0), [0.000000000000e00, 1.952826800000e-02, -1.228618500000e-06, -1.075217800000e-09, -5.908693300000e-13, -1.725671300000e-16, -2.813151300000e-20, -2.396337000000e-24, -8.382332100000e-29]),
  ((0, 42919), [0.000000000000e00, 1.978425000000e-02, -2.001204000000e-07, 1.036969000000e-11, -2.549687000000e-16, 3.585153000000e-21, -5.344285000000e-26, 5.099890000000e-31]),
  ((42919, 69553), [-3.113581870000e03, 3.005436840000e-01, -9.947732300000e-06, 1.702766300000e-10, -1.430334680000e-15, 4.738860840000e-21])
]

def J_TEMP_TO_SEEBECK : List Entry := [
  ((-210, 760), [5.038118781500e01, 6.095167386000e-02, -2.570431971600e-04, 5.291278118000e-07, -8.526479168500e-10, 1.256885441820e-12, -8.776837035200e-16, 1.250538055760e-19]),
  ((760, 1200), [-1.497612778600e03, 6.357420784800e00, -9.554306010300e-03, 6.288327601600e-06, -1.534568452800e-09])
]

def J_TEMP_TO_DSDT : List Entry := [
  ((-210, 760), [6.095167386000e-02, -5.140863943200e-04, 1.587383435400e-06, -3.410591667400e-09, 6.284427209100e-12, -5.266102421120e-15, 8.753766390320e-19]),
  ((760, 1200), [6.357420784800e00, -1.910861202060e-02, 1.886498280480e-05, -6.138273811200e-09])
]

def J_TEMP_TO_MICROVOLT_POS_LEG : List Entry := [
  ((-210, 760), [0.000000000000e00, 1.791354855900e01, 4.677466335800e-03, -7.122599299100e-05, 1.335212501600e-07, -1.500896263900e-10, 1.551431962500e-13, -7.950357212500e-17, 2.429790391000e-21])
]

def J_TEMP_TO_MICROVOLT_NEG_LEG : List Entry := [
  ((-210, 760), [0.000000000000e00, 3.246763925600e01, 2.579837059400e-02, -1.445507273000e-05, -1.239297209300e-06, -2.043995698000e-11, 5.433771071800e-14, -4.588038123500e-17, 1.320193530600e-20])
]

def J_TEMP_TO_SEEBECK_POS_LEG : List Entry := [
  ((-210, 760), [1.791354855900e01, 9.354932671600e-03, -2.136779789730e-04, 5.340850006400e-07, -7.504481319500e-10, 9.308591775000e-13, -5.565250048750e-16, 1.943832312800e-19])
]

def J_TEMP_TO_SEEBECK_NEG_LEG : List Entry := [
  ((-210, 760), [3.246763925600e01, 5.159674118800e-02, -4.336521819000e-05, -4.957188837200e-06, -1.021997849000e-10, 3.260262643080e-13, -3.210626686450e-16, 1.188174177540e-19])
]

/-- Coefficient tables transcribed from type_n.py. -/
def N_TEMP_TO_MICROVOLT : List Entry := [
  ((-270, 0), [0.000000000000e00, 2.615910596200e01, 1.095748422800e-02, -9.384111155400e-05, -4.641203975900e-06, -2.630335771600e-07, -2.265343800300e-09, -7.608930079100e-12, -9.341966783500e-15]),
  ((0, 1300), [0.000000000000e00, 2.592939460100e01, 1.571014188000e-02, 4.382562723700e-05, -2.526116979400e-07, 6.431181933900e-10, -1.006347151900e-12, 9.974533899200e-16, -6.086324560700e-19, 2.084922933900e-22, -3.068219615100e-26])
]

def N_MICROVOLT_TO_TEMP : List Entry := [
  ((-3990, 0), [0.000000000000e00, 3.843684700000e-02, 1.101048500000e-06, 5.222931200000e-09, 7.206052500000e-13, 5.848858600000e-15, 2.775491600000e-18, 7.707516600000e-22, 1.158266500000e-25, 7.313886800000e-30]),
  ((0, 20613), [0.000000000000e00, 3.868960000000e-02, -1.082670000000e-06, 4.702050000000e-11, -2.121690000000e-16, -1.172720000000e-19, 5.392800000000e-24, -7.981560000000e-29]),
  ((20613, 47513), [1.972485000000e01, 3.300943000000e-02, -3.915159000000e-07, 9.855391000000e-12, -1.274371000000e-16, 7.767022000000e-22]),
  ((0, 47513), [0.000000000000e00, 3.876327700000e-02, -1.161234400000e-06, 6.952565500000e-11, -3.009007700000e-15, 8.831158400000e-20, -1.621383900000e-24, 1.669336200000e-29, -7.311754000000e-35])
]

def N_TEMP_TO_SEEBECK : List Entry := [
  ((-270, 0), [2.615910596200e01, 2.191496845600e-02, -2.815233346620e-04, -1.856481590360e-05, -1.315167885800e-06, -1.359206280180e-08, -5.326251055370e-11, -7.473573426800e-14]),
  ((0, 1300), [2.592939460100e01, 3.142028376000e-02, 1.314768817110e-04, -1.010446791760e-06, 3.215590966950e-09, -6.038082911400e-12, 6.982203739440e-15, -4.869059648560e-18, 1.876450640510e-21, -3.068219615100e-25])
]

def N_TEMP_TO_DSDT : List Entry := [
  ((-270, 0), [2.191496845600e-02, -5.630466693240e-04, -5.569444771080e-05, -5.260671543200e-06, -6.796031401080e-08, -3.195750633222e-10, -5.231501998760e-13]),
  ((0, 1300), [3.142028376000e-02, 2.629537634220e-04, -3.031340375280e-06, 1.286236386780e-08, -3.019041746840e-11, 4.187542616064e-14, -3.408247718848e-17, 1.501060432408e-20, -2.761397653590e-24])
]

def N_TEMP_TO_MICROVOLT_POS_LEG : List Entry := [
  ((-200, 0), [0.000000000000e00, 1.074111753200e01, -1.474989822900e-02, -3.653285783200e-06, 4.901358902900e-07, 7.222858260400e-10, -1.538109323600e-11, -7.608930079100e-14, -9.341966783500e-17]),
  ((0, 1300), [0.000000000000e00, 1.048400865500e01, -1.101219940900e-02, 6.942094028900e-05, -2.195836005300e-07, 4.423649636800e-10, -5.792656096400e-13, 4.793166547000e-16, -2.397612067600e-19, 6.580494631800e-23, -7.560893996500e-27])
]

def N_TEMP_TO_MICROVOLT_NEG_LEG : List Entry := [
  ((-200, 0), [0.000000000000e00, 1.541798843000e01, 2.570738245700e-02, -9.018782577100e-05, -5.365479300500e-06, -3.352621597600e-09, -7.272344767000e-12]),
  ((0, 1300), [0.000000000000e00, 1.544536594700e01, 2.672341269000e-02, -2.559531305200e-05, -3.302809741400e-08, 2.007532297100e-10, -4.270815423000e-13, 5.181347352200e-16, -3.689712493100e-19, 1.426973470800e-22, -2.312130215400e-26])
]

def N_TEMP_TO_SEEBECK_POS_LEG : List Entry := [
  ((-200, 0), [1.074111753200e01, -2.949979645800e-02, -1.095985734960e-05, 1.960543561160e-06, 2.889143304160e-09, -9.228655941600e-11, -5.326251055370e-13, -7.473573426800e-16]),
  ((0, 1300), [1.048400865500e01, -2.202439881800e-02, 2.082628208670e-04, -8.783344021200e-07, 2.211824818400e-09, -4.054859267480e-12, 3.834533237600e-15, -1.917089654080e-18, 5.922445168620e-21, -7.560893996500e-24])
]

def N_TEMP_TO_SEEBECK_NEG_LEG : List Entry := [
  ((-200, 0), [1.541798843000e01, 5.141476491400e-02, -2.705487868130e-04, -2.146191720200e-05, -1.341048639040e-07, -4.363409860400e-10]),
  ((0, 1300), [1.544536594700e01, 5.344682538000e-02, -7.678593915600e-05, -1.321123896560e-07, 1.003766148550e-09, -2.562489253800e-12, 3.627943146540e-15, -2.951769994480e-18, 1.284276123720e-21, -2.543343236940e-24])
]

/-- Coefficient tables transcribed from type_r.py. -/
def R_TEMP_TO_MICROVOLT : List Entry := [
  ((-50, 1064.18), [0.000000000000e00, 5.289617297650e00, 1.391665897820e-02, -2.388556930170e-05, 3.569160010630e-08, -4.623476662980e-11, 5.007774410340e-14, -3.731058861910e-17, 1.577164823670e-20, -2.810386252510e-24]),
  ((1064.18, 1664.5), [2.951579253160e03, -2.520612513320e00, 1.595645018650e-02, -7.640859475760e-06, 2.053052910240e-09, -2.933596681730e-13]),
  ((1664.5, 1768.1), [1.522321182090e05, -2.688198885450e02, 1.712802804710e-01, -3.458957064530e-05, -9.346339710460e-12])
]

def R_MICROVOLT_TO_TEMP : List Entry := [
  ((-226, 1923), [0.0000000000e00, 1.8891380000e-01, -9.3835290000e-05, 1.3068619000e-07, -2.2703580000e-10, 3.5145659000e-13, -3.8953900000e-16, 2.8239471000e-19, -1.2607281000e-22, 3.1353611000e-26, -3.3187769000e-30]),
  ((1923, 13228), [1.334584505000e01, 1.472644573000e-01, -1.844024844000e-05, 4.031129726000e-09, -6.249428360000e-13, 6.468412046000e-17, -4.458750426000e-21, 1.994710149000e-25, -5.313401790000e-30, 6.481976217000e-35]),
  ((11361, 19739), [-8.199599416000e01, 1.553962042000e-01, -8.342197663000e-06, 4.279433549000e-10, -1.191577910000e-14, 1.492290091000e-19]),
  ((19739, 21103), [3.406177836000e01, -7.023729171000e-03, 5.582903813000e-06, -1.952394635000e-09, 2.560740231000e-13])
]

def R_TEMP_TO_SEEBECK : List Entry := [
  ((-50, 1064.18), [5.289617297650e00, 2.783331795640e-02, -7.165670790510e-05, 1.427664004252e-07, -2.311738331490e-10, 3.004664646204e-13, -2.611741203370e-16, 1.261731858936e-19, -2.529347502259e-23]),
  ((1064.18, 1664.5), [-2.520612513320e00, 3.191290037300e-02, -2.292257862280e-05, 8.212211640960e-09, -1.466798340865e-12]),
  ((1664.5, 1768.1), [-2.688198885450e02, 3.425605609420e-01, -1.037691219359e-04, -3.738533884184e-11])
]

def R_TEMP_TO_DSDT : List Entry := [
  ((-50, 1064.18), [2.783331795640e-02, -1.433134158102e-04, 4.282992012756e-07, -9.246953325960e-10, 1.502332323102e-12, -1.567044722022e-15, 8.821230212552e-19, -2.026478001807e-22]),
  ((1064.18, 1664.5), [3.191290037300e-02, -4.584515724560e-05, 2.463663492288e-08, -5.867193363460e-12]),
  ((1664.5, 1768.1), [3.425605609420e-01, -2.075382438718e-04, -1.121560165255e-10])
]

def R_TEMP_TO_MICROVOLT_POS_LEG : List Entry := [
  ((-50, 1064.18), [0.000000000000e00, 5.289617297650e00, 1.391665897820e-02, -2.388556930170e-05, 3.569160010630e-08, -4.623476662980e-11, 5.007774410340e-14, -3.731058861910e-17, 1.577164823670e-20, -2.810386252510e-24]),
  ((1064.18, 1664.5), [2.951579253160e03, -2.520612513320e00, 1.595645018650e-02, -7.640859475760e-06, 2.053052910240e-09, -2.933596681730e-13]),
  ((1664.5, 1768.1), [1.522321182090e05, -2.688198885450e02, 1.712802804710e-01, -3.458957064530e-05, -9.346339710460e-12])
]

def R_TEMP_TO_MICROVOLT_NEG_LEG : List Entry := [
  ((-50, 1768.1), [0.000000000000e00])
]

def R_TEMP_TO_SEEBECK_POS_LEG : List Entry := [
  ((-50, 1064.18), [5.289617297650e00, 2.783331795640e-02, -7.165670790510e-05, 1.427664004252e-07, -2.311738331490e-10, 3.004664646204e-13, -2.611741203370e-16, 1.261731858936e-19, -2.529347502259e-23]),
  ((1064.18, 1664.5), [-2.520612513320e00, 3.191290037300e-02, -2.292257862280e-05, 8.212211640960e-09, -1.466798340865e-12]),
  ((1664.5, 1768.1), [-2.688198885450e02, 3.425605609420e-01, -1.037691219359e-04, -3.738533884184e-11])
]

def R_TEMP_TO_SEEBECK_NEG_LEG : List Entry := [
  ((-50, 1768.1), [0.0])
]

/-- Coefficient tables transcribed from type_s.py. -/
def S_TEMP_TO_MICROVOLT : List Entry := [
  ((-50, 1064.18), [0.000000000000e00, 5.403133086310e00, 1.259342897400e-02, -2.324779686890e-05, 3.220288230360e-08, -3.314651963890e-11, 2.557442517860e-14, -1.250688713930e-17, 2.714431761450e-21]),
  ((1064.18, 1664.5), [1.329004440850e03, 3.345093113440e00, 6.548051928180e-03, -1.648562592090e-06, 1.299896051740e-11]),
  ((1664.5, 1768.1), [1.466282326360e05, -2.584305167520e02, 1.636935746410e-01, -3.304390469870e-05, -9.432236906120e-12])
]

def S_MICROVOLT_TO_TEMP : List Entry := [
  ((-235, 1874), [0.000000000000e00, 1.849494600000e-01, -8.005040620000e-05, 1.022374300000e-07, -1.522485920000e-10, 1.888213430000e-13, -1.590859410000e-16, 8.230278800000e-20, -2.341819440000e-23, 2.797862600000e-27]),
  ((1874, 11950), [1.291507177000e01, 1.466298863000e-01, -1.534713402000e-05, 3.145945973000e-09, -4.163257839000e-13, 3.187963771000e-17, -1.291637500000e-21, 2.183475087000e-26, -1.447379511000e-31, 8.211272125000e-36]),
  ((10332, 17536), [-8.087801117000e01, 1.621573104000e-01, -8.536869453000e-06, 4.719686976000e-10, -1.441693666000e-14, 2.081618890000e-19]),
  ((17536, 18693), [5.333875126000e01, -1.235892298000e-02, 1.092657613000e-06, -4.265693686000e-09, 6.247205420000e-13])
]

def S_TEMP_TO_SEEBECK : List Entry := [
  ((-50, 1064.18), [5.403133086310e00, 2.518685794800e-02, -6.974339060670e-05, 1.288115292144e-07, -1.657325963945e-10, 1.534465510716e-13, -8.754820751100e-17, 2.171545409160e-20]),
  ((1064.18, 1664.5), [3.345093113440e00, 1.309610385636e-02, -4.945637776270e-06, 5.199584069600e-11]),
  ((1664.5, 1768.1), [-2.584305167520e02, 3.273871492820e-01, -9.913171409610e-05, -3.772894762448e-11])
]

def S_TEMP_TO_DSDT : List Entry := [
  ((-50, 1064.18), [2.518685794800e-02, -1.394867812134e-04, 3.864345876432e-07, -6.629303855780e-10, 7.672327553580e-13, -5.252874525770e-16, 1.520081486312e-19]),
  ((1064.18, 1664.5), [1.309610385636e-02, -9.891275552540e-06, 1.559875220880e-10]),
  ((1664.5, 1768.1), [3.273871492820e-01, -1.982634281922e-04, -1.131868428734e-10])
]

def S_TEMP_TO_MICROVOLT_POS_LEG : List Entry := [
  ((-50, 1064.18), [0.000000000000e00, 5.403133086310e00, 1.259342897400e-02, -2.324779686890e-05, 3.220288230360e-08, -3.314651963890e-11, 2.557442517860e-14, -1.250688713930e-17, 2.714431761450e-21]),
  ((1064.18, 1664.5), [1.329004440850e03, 3.345093113440e00, 6.548051928180e-03, -1.648562592090e-06, 1.299896051740e-11]),
  ((1664.5, 1768.1), [1.466282326360e05, -2.584305167520e02, 1.636935746410e-01, -3.304390469870e-05, -9.432236906120e-12])
]

def S_TEMP_TO_MICROVOLT_NEG_LEG : List Entry := [
  ((-50, 1768.1), [0.000000000000e00])
]

def S_TEMP_TO_SEEBECK_POS_LEG : List Entry := [
  ((-50, 1064.18), [5.403133086310e00, 2.518685794800e-02, -6.974339060670e-05, 1.288115292144e-07, -1.657325963945e-10, 1.534465510716e-13, -8.754820751100e-17, 2.171545409160e-20]),
  ((1064.18, 1664.5), [3.345093113440e00, 1.309610385636e-02, -4.945637776270e-06, 5.199584069600e-11]),
  ((1664.5, 1768.1), [-2.584305167520e02, 3.273871492820e-01, -9.913171409610e-05, -3.772894762448e-11])
]

def S_TEMP_TO_SEEBECK_NEG_LEG : List Entry := [
  ((-50, 1768.1), [0.0])
]

/-- Coefficient tables transcribed from type_t.py. -/
def T_TEMP_TO_MICROVOLT : List Entry := [
  ((-270, 0), [0.000000000000e00, 3.874810636400e01, 4.419443434700e-02, 1.184432310500e-04, 2.003297355400e-05, 9.013801955900e-07, 2.265115659300e-08, 3.607115420500e-10, 3.849393988300e-12, 2.821352192500e-14, 1.425159477900e-16, 4.876866228600e-19, 1.079553927000e-21, 1.394502706200e-24, 7.979515392700e-28]),
  ((0, 400), [0.000000000000e00, 3.874810636400e01, 3.329222788000e-02, 2.061824340400e-04, -2.188225684600e-06, 1.099688092800e-08, -3.081575877200e-11, 4.547913529000e-14, -2.751290167300e-17])
]

def T_MICROVOLT_TO_TEMP : List Entry := [
  ((-5603, 0), [0.000000000000e00, 2.594919200000e-02, -2.131696700000e-07, 7.901869200000e-10, 4.252777700000e-13, 1.330447300000e-16, 2.024144600000e-20, 1.266817100000e-24]),
  ((0, 20872), [0.000000000000e00, 2.592800000000e-02, -7.602961000000e-07, 4.637791000000e-11, -2.165394000000e-15, 6.048144000000e-20, -7.293422000000e-25])
]

def T_TEMP_TO_SEEBECK : List Entry := [
  ((-270, 0), [3.874810636400e01, 8.838886869400e-02, 3.553296931500e-04, 8.013189421600e-05, 4.506909779500e-06, 1.359069395580e-07, 2.524990843500e-09, 3.079515190640e-11, 2.539206932500e-13, 1.425159477900e-15, 5.364928850600e-18, 1.295464712400e-20, 1.812853518060e-23, 1.117132050780e-26]),
  ((0, 400), [3.874810636400e01, 6.658445576000e-02, 6.185473021200e-04, -8.752902738400e-06, 5.498440464000e-08, -1.848945526320e-10, 3.183539470300e-13, -2.201032138400e-16])
]

def T_TEMP_TO_DSDT : List Entry := [
  ((-270, 0), [8.838886869400e-02, 7.106593863000e-04, 2.403956826480e-04, 1.802763911800e-05, 6.795346977900e-07, 1.514994506100e-08, 2.155660633448e-10, 2.031365546000e-12, 1.282643530110e-14, 5.364928850600e-17, 1.425164712400e-19, 2.356710723278e-22, 1.562382668092e-25]),
  ((0, 400), [6.658445576000e-02, 1.237094604240e-03, -2.625870821520e-05, 2.199376185600e-07, -9.244727631600e-10, 1.910123682180e-12, -1.540722496720e-15])
]

def T_TEMP_TO_MICROVOLT_POS_LEG : List Entry := [
  ((-270, 0), [0.000000000000e00, 5.894548229700e01, 2.177354516700e-02, 2.826751733100e-04, 2.256129063200e-05, 9.502026902000e-07, 2.412716823300e-08, 3.910747567800e-10, 4.217403476600e-12, 3.094671890400e-14, 1.551930033900e-16, 5.235860991100e-19, 1.136383791300e-21, 1.433054079200e-24, 7.979515392700e-28]),
  ((0, 400), [0.000000000000e00, 5.894548226500e01, 1.509134765200e-02, 1.385988324200e-04, -1.827351164900e-06, 1.033635649100e-08, -3.065826553400e-11, 4.681530823500e-14, -2.974071681200e-17, 1.474503431300e-20, -3.659405308700e-25])
]

def T_TEMP_TO_MICROVOLT_NEG_LEG : List Entry := [
  ((-270, 0), [0.000000000000e00, 3.285355813400e01, 2.242088818100e-02, -1.642329422600e-04, -2.528317078000e-06, -4.892249460900e-08, -1.476011640400e-09, -3.036321473100e-11, -3.680094883000e-13, -2.733196978500e-15, -1.267705560500e-17, -3.589947524700e-20, -5.682986428000e-23, -3.855137308500e-26]),
  ((0, 1000), [0.000000000000e00, 3.285355813800e01, 1.820088022700e-02, 6.758360162400e-05, -3.608745197500e-07, 6.605244362300e-10, -1.574932377100e-13, -1.336172944200e-15, 2.227815139100e-18, -1.474503431300e-21, 3.659405308700e-25])
]

def T_TEMP_TO_SEEBECK_POS_LEG : List Entry := [
  ((-270, 0), [5.894548229700e01, 4.354709033400e-02, 8.480255199300e-04, 9.024516252800e-05, 4.751013451000e-06, 1.447630093980e-07, 2.737523297460e-09, 3.373922781280e-11, 2.785204701360e-13, 1.551930033900e-15, 5.759447090210e-18, 1.363660549560e-20, 1.863970303960e-23, 1.117132050780e-26]),
  ((0, 400), [5.894548226500e01, 3.018269530400e-02, 4.157964972600e-04, -7.309404659600e-06, 5.168178245500e-08, -2.146078587380e-10, 3.277071576450e-13, -2.379257345000e-16, 1.327053088170e-19, -3.659405308700e-24])
]

def T_TEMP_TO_SEEBECK_NEG_LEG : List Entry := [
  ((-270, 0), [3.285355813400e01, 4.484177636200e-02, -4.926988267800e-04, -1.011326831200e-05, -2.935349676540e-07, -8.856069842400e-09, -2.125425031170e-10, -2.944075906400e-12, -2.459877280650e-14, -1.267705560500e-16, -3.948942277170e-19, -7.387882356000e-22, -5.011678501050e-25]),
  ((0, 1000), [3.285355813800e01, 3.640176045400e-02, 2.027508048720e-04, -1.443498079000e-06, 3.963146617380e-09, -9.449594262600e-13, -9.353210609400e-15, 1.782252111280e-17, -1.327053088170e-20, 3.659405308700e-24])
]

/-- Modelled from the spec: type_k.py is missing from src (only registry.py
imports its constants). The spec declares the concrete numeric coefficient
tables to be out-of-scope reference data; the constant is
modelled as a single-entry range table over the documented type K domain
with an unspecified placeholder coefficient list. No claim in this
development depends on these numeric values. -/
def K_TEMP_TO_MICROVOLT : List Entry := [((-270, 1372), [0])]

/-- Modelled from the spec: missing type_k.py constant, see K_TEMP_TO_MICROVOLT. -/
def K_MICROVOLT_TO_TEMP : List Entry := [((-5891, 54886), [0])]

/-- Modelled from the spec: missing type_k.py constant, see K_TEMP_TO_MICROVOLT. -/
def K_TEMP_TO_SEEBECK : List Entry := [((-270, 1372), [0])]

/-- Modelled from the spec: missing type_k.py constant, see K_TEMP_TO_MICROVOLT. -/
def K_TEMP_TO_DSDT : List Entry := [((-270, 1372), [0])]

/-- Modelled from the spec: missing type_k.py constant, see K_TEMP_TO_MICROVOLT. -/
def K_TEMP_TO_MICROVOLT_POS_LEG : List Entry := [((-270, 1372), [0])]

/-- Modelled from the spec: missing type_k.py constant, see K_TEMP_TO_MICROVOLT. -/
def K_TEMP_TO_MICROVOLT_NEG_LEG : List Entry := [((-270, 1372), [0])]

/-- Modelled from the spec: missing type_k.py constant, see K_TEMP_TO_MICROVOLT. -/
def K_TEMP_TO_SEEBECK_POS_LEG : List Entry := [((-270, 1372), [0])]

/-- Modelled from the spec: missing type_k.py constant, see K_TEMP_TO_MICROVOLT. -/
def K_TEMP_TO_SEEBECK_NEG_LEG : List Entry := [((-270, 1372), [0])]

/-- Modelled from the spec: type_k.py also defines four correction closures
(the spec describes a bounded exponential anomaly term, e.g. the magnetic
transition of one alloy pair, with numeric parameters that are out-of-scope
reference constants). Only the presence of the closure matters to any
claim here; the term itself is modelled as an unspecified additive
rational function. -/
def type_k_voltage_expo_function (t : ℚ) : ℚ := t * 0

/-- Modelled from the spec: missing type_k.py closure, see
type_k_voltage_expo_function. -/
def type_k_seebeck_expo_function (t : ℚ) : ℚ := t * 0

/-- Modelled from the spec: missing type_k.py closure, see
type_k_voltage_expo_function. -/
def type_k_dsdt_expo_function (t : ℚ) : ℚ := t * 0

/-- Modelled from the spec: missing type_k.py closure, see
type_k_voltage_expo_function. -/
def type_k_kn_expo_function (t : ℚ) : ℚ := t * 0

/-- Modelled from the spec: type_e.py is missing from src, see
K_TEMP_TO_MICROVOLT for the modelling convention. -/
def E_TEMP_TO_MICROVOLT : List Entry := [((-270, 1000), [0])]

/-- Modelled from the spec: missing type_e.py constant, see E_TEMP_TO_MICROVOLT. -/
def E_MICROVOLT_TO_TEMP : List Entry := [((-9835, 76373), [0])]

/-- Modelled from the spec: missing type_e.py constant, see E_TEMP_TO_MICROVOLT. -/
def E_TEMP_TO_SEEBECK : List Entry := [((-270, 1000), [0])]

/-- Modelled from the spec: missing type_e.py constant, see E_TEMP_TO_MICROVOLT. -/
def E_TEMP_TO_DSDT : List Entry := [((-270, 1000), [0])]

/-- Modelled from the spec: missing type_e.py constant, see E_TEMP_TO_MICROVOLT. -/
def E_TEMP_TO_MICROVOLT_POS_LEG : List Entry := [((-270, 1000), [0])]

/-- Modelled from the spec: missing type_e.py constant, see E_TEMP_TO_MICROVOLT. -/
def E_TEMP_TO_MICROVOLT_NEG_LEG : List Entry := [((-270, 1000), [0])]

/-- Modelled from the spec: missing type_e.py constant, see E_TEMP_TO_MICROVOLT. -/
def E_TEMP_TO_SEEBECK_POS_LEG : List Entry := [((-270, 1000), [0])]

/-- Modelled from the spec: missing type_e.py constant, see E_TEMP_TO_MICROVOLT. -/
def E_TEMP_TO_SEEBECK_NEG_LEG : List Entry := [((-270, 1000), [0])]

/-! ## Registry (registry.py) -/

/-- registry.py TYPE_K: all eight tables and all four correction closures. -/
def TYPE_K : ThermocoupleType :=
  ThermocoupleType.init "K" K_TEMP_TO_MICROVOLT K_MICROVOLT_TO_TEMP
    (some K_TEMP_TO_SEEBECK) (some K_TEMP_TO_DSDT)
    (some K_TEMP_TO_MICROVOLT_POS_LEG) (some K_TEMP_TO_MICROVOLT_NEG_LEG)
    (some K_TEMP_TO_SEEBECK_POS_LEG) (some K_TEMP_TO_SEEBECK_NEG_LEG)
    (some type_k_voltage_expo_function) (some type_k_seebeck_expo_function)
    (some type_k_dsdt_expo_function) (some type_k_kn_expo_function)

/-- registry.py TYPE_J: eight tables, no correction closures. -/
def TYPE_J : ThermocoupleType :=
  ThermocoupleType.init "J" J_TEMP_TO_MICROVOLT J_MICROVOLT_TO_TEMP
    (some J_TEMP_TO_SEEBECK) (some J_TEMP_TO_DSDT)
    (some J_TEMP_TO_MICROVOLT_POS_LEG) (some J_TEMP_TO_MICROVOLT_NEG_LEG)
    (some J_TEMP_TO_SEEBECK_POS_LEG) (some J_TEMP_TO_SEEBECK_NEG_LEG)
    none none none none

/-- registry.py TYPE_T: eight tables, no correction closures. -/
def TYPE_T : ThermocoupleType :=
  ThermocoupleType.init "T" T_TEMP_TO_MICROVOLT T_MICROVOLT_TO_TEMP
    (some T_TEMP_TO_SEEBECK) (some T_TEMP_TO_DSDT)
    (some T_TEMP_TO_MICROVOLT_POS_LEG) (some T_TEMP_TO_MICROVOLT_NEG_LEG)
    (some T_TEMP_TO_SEEBECK_POS_LEG) (some T_TEMP_TO_SEEBECK_NEG_LEG)
    none none none none

/-- registry.py TYPE_E: eight tables, no correction closures. -/
def TYPE_E : ThermocoupleType :=
  ThermocoupleType.init "E" E_TEMP_TO_MICROVOLT E_MICROVOLT_TO_TEMP
    (some E_TEMP_TO_SEEBECK) (some E_TEMP_TO_DSDT)
    (some E_TEMP_TO_MICROVOLT_POS_LEG) (some E_TEMP_TO_MICROVOLT_NEG_LEG)
    (some E_TEMP_TO_SEEBECK_POS_LEG) (some E_TEMP_TO_SEEBECK_NEG_LEG)
    none none none none

/-- registry.py TYPE_N: eight tables, no correction closures. -/
def TYPE_N : ThermocoupleType :=
  ThermocoupleType.init "N" N_TEMP_TO_MICROVOLT N_MICROVOLT_TO_TEMP
    (some N_TEMP_TO_SEEBECK) (some N_TEMP_TO_DSDT)
    (some N_TEMP_TO_MICROVOLT_POS_LEG) (some N_TEMP_TO_MICROVOLT_NEG_LEG)
    (some N_TEMP_TO_SEEBECK_POS_LEG) (some N_TEMP_TO_SEEBECK_NEG_LEG)
    none none none none

/-- registry.py TYPE_B: eight tables, no correction closures. -/
def TYPE_B : ThermocoupleType :=
  ThermocoupleType.init "B" B_TEMP_TO_MICROVOLT B_MICROVOLT_TO_TEMP
    (some B_TEMP_TO_SEEBECK) (some B_TEMP_TO_DSDT)
    (some B_TEMP_TO_MICROVOLT_POS_LEG) (some B_TEMP_TO_MICROVOLT_NEG_LEG)
    (some B_TEMP_TO_SEEBECK_POS_LEG) (some B_TEMP_TO_SEEBECK_NEG_LEG)
    none none none none

/-- registry.py TYPE_R: eight tables, no correction closures. -/
def TYPE_R : ThermocoupleType :=
  ThermocoupleType.init "R" R_TEMP_TO_MICROVOLT R_MICROVOLT_TO_TEMP
    (some R_TEMP_TO_SEEBECK) (some R_TEMP_TO_DSDT)
    (some R_TEMP_TO_MICROVOLT_POS_LEG) (some R_TEMP_TO_MICROVOLT_NEG_LEG)
    (some R_TEMP_TO_SEEBECK_POS_LEG) (some R_TEMP_TO_SEEBECK_NEG_LEG)
    none none none none

/-- registry.py TYPE_S: eight tables, no correction closures. -/
def TYPE_S : ThermocoupleType :=
  ThermocoupleType.init "S" S_TEMP_TO_MICROVOLT S_MICROVOLT_TO_TEMP
    (some S_TEMP_TO_SEEBECK) (some S_TEMP_TO_DSDT)
    (some S_TEMP_TO_MICROVOLT_POS_LEG) (some S_TEMP_TO_MICROVOLT_NEG_LEG)
    (some S_TEMP_TO_SEEBECK_POS_LEG) (some S_TEMP_TO_SEEBECK_NEG_LEG)
    none none none none

/-- registry.py THERMOCOUPLE_TYPES: the registry dict, modelled as an
association list in its insertion order. -/
def THERMOCOUPLE_TYPES : List (String × ThermocoupleType) :=
  [("B", TYPE_B), ("E", TYPE_E), ("J", TYPE_J), ("K", TYPE_K),
   ("N", TYPE_N), ("R", TYPE_R), ("S", TYPE_S), ("T", TYPE_T)]

/-- Lexicographic code-point comparison on character lists, the order
Python sorted uses on strings. -/
def charListLt : List Char → List Char → Bool
  | _, [] => false
  | [], _ :: _ => true
  | a :: as, b :: bs =>
      if a.toNat < b.toNat then true
      else if b.toNat < a.toNat then false
      else charListLt as bs

/-- Lexicographic code-point comparison on strings. -/
def strLt (a b : String) : Bool := charListLt a.data b.data

/-- Insertion step for the model of Python sorted on strings. -/
def insertSorted (s : String) : List String → List String
  | [] => [s]
  | t :: rest => if strLt s t then s :: t :: rest else t :: insertSorted s rest

/-- Model of Python sorted on a list of strings (insertion sort). -/
def sortedStrings (l : List String) : List String := l.foldr insertSorted []

/-- Model of the Python str.upper call on the type code: upper-case each
character (the codes of interest are single ASCII letters). -/
def str_upper (s : String) : String := String.mk (s.data.map Char.toUpper)

/-- Model of registry.get_thermocouple: upper-case the code, look it up in
the registry, otherwise raise the unknown-type ValueError whose message
lists the sorted, comma-joined available codes. -/
def get_thermocouple (tc_type : String) : Except TCError ThermocoupleType :=
  let up := str_upper tc_type
  match THERMOCOUPLE_TYPES.find? (fun p => p.1 == up) with
  | some p => .ok p.2
  | none =>
      let available := String.intercalate ", " (sortedStrings (THERMOCOUPLE_TYPES.map Prod.fst))
      .error (.unknownType up available)

/-! ## Demo model for concrete witnesses and counterexamples -/

/-- A small synthetic model: type name X, forward table with one entry
over [0, 100] and the zero polynomial, inverse table with one entry over
[0, 100] and the zero polynomial, no optional tables, no corrections. -/
def demoTC : ThermocoupleType :=
  ThermocoupleType.init "X" [((0, 100), [0])] [((0, 100), [0])]
    none none none none none none none none none none

/-! ## Helper lemmas -/

/-- The range scan equals the first-match search on the entry list. -/
theorem select_coeffs_eq_find (name : String) (x : ℚ) (tables : List Entry) :
    select_coeffs name x tables =
      match tables.find? (fun e => decide (e.1.1 ≤ x ∧ x ≤ e.1.2)) with
      | some e => Except.ok e.2
      | none => Except.error (TCError.outOfRange x name) := by
  induction tables with
  | nil => rfl
  | cons e rest ih =>
      obtain ⟨⟨lo, hi⟩, coeffs⟩ := e
      by_cases h : lo ≤ x ∧ x ≤ hi
      · rw [select_coeffs, if_pos h, List.find?_cons_of_pos _ (by simpa using h)]
      · rw [select_coeffs, if_neg h, List.find?_cons_of_neg _ (by simpa using h), ih]

/-- Auxiliary: the enumerate-map-sum starting at offset k. -/
theorem enumFrom_polyval_sum (x : ℚ) (l : List ℚ) (k : ℕ) :
    ((l.enumFrom k).map (fun p => p.2 * x ^ p.1)).sum
      = ∑ i ∈ Finset.range l.length, l.getD i 0 * x ^ (k + i) := by
  induction l generalizing k with
  | nil => simp
  | cons c l ih =>
      have hstep : ∀ i : ℕ, k + 1 + i = k + (i + 1) := by omega
      simp only [List.enumFrom, List.map_cons, List.sum_cons, ih (k + 1),
        List.length_cons, Finset.sum_range_succ']
      simp [hstep, add_comm]

/-- The polynomial evaluator equals the finite power sum of the claim. -/
theorem polyval_eq_sum (coeffs : List ℚ) (x : ℚ) :
    polyval coeffs x = ∑ i ∈ Finset.range coeffs.length, coeffs.getD i 0 * x ^ i := by
  have h := enumFrom_polyval_sum x coeffs 0
  simpa [polyval, List.enum] using h

/-- Closed form of temperature_to_voltage: first matching forward entry,
polynomial plus optional correction, then division by 1e6. -/
theorem temperature_to_voltage_eq (tc : ThermocoupleType) (T : ℚ) :
    tc.temperature_to_voltage T =
      match tc.temp_to_microvolt.find? (fun e => decide (e.1.1 ≤ T ∧ T ≤ e.1.2)) with
      | some e => Except.ok ((polyval e.2 T +
          (match tc.microvolt_expo_function with
           | some f => f T
           | none => 0)) / 1000000)
      | none => Except.error (TCError.outOfRange T tc.name) := by
  unfold ThermocoupleType.temperature_to_voltage
  rw [select_coeffs_eq_find]
  cases h : tc.temp_to_microvolt.find? (fun e => decide (e.1.1 ≤ T ∧ T ≤ e.1.2)) with
  | none => rfl
  | some e =>
      cases hf : tc.microvolt_expo_function with
      | none => simp [hf]
      | some f => simp [hf]

/-- Closed form of voltage_to_temperature: scale to microvolts, first
matching inverse entry, bare polynomial value. -/
theorem voltage_to_temperature_eq (tc : ThermocoupleType) (V : ℚ) :
    tc.voltage_to_temperature V =
      match tc.microvolt_to_temp.find?
          (fun e => decide (e.1.1 ≤ V * 1000000 ∧ V * 1000000 ≤ e.1.2)) with
      | some e => Except.ok (polyval e.2 (V * 1000000))
      | none => Except.error (TCError.outOfRange (V * 1000000) tc.name) := by
  show (do
      let coeffs ← select_coeffs tc.name (V * 1000000) tc.microvolt_to_temp
      pure (polyval coeffs (V * 1000000))) = _
  rw [select_coeffs_eq_find]
  cases h : tc.microvolt_to_temp.find?
      (fun e => decide (e.1.1 ≤ V * 1000000 ∧ V * 1000000 ≤ e.1.2)) with
  | none => rfl
  | some e => rfl

/-- Closed form of the cold-junction compensation: bind of the forward
call into the inverse call on the summed voltage. -/
theorem with_reference_eq (tc : ThermocoupleType) (v_measured t_ref : ℚ) :
    tc.voltage_to_temperature_with_reference v_measured t_ref =
      match tc.temperature_to_voltage t_ref with
      | Except.ok v_ref => tc.voltage_to_temperature (v_measured + v_ref)
      | Except.error e => Except.error e := by
  unfold ThermocoupleType.voltage_to_temperature_with_reference
  cases h : tc.temperature_to_voltage t_ref with
  | error e => rfl
  | ok v_ref =>
      show tc.voltage_to_temperature (v_measured + v_ref) >>= pure =
        tc.voltage_to_temperature (v_measured + v_ref)
      cases tc.voltage_to_temperature (v_measured + v_ref) with
      | error e => rfl
      | ok r => rfl

/-- Every error of the range scan is the out-of-range error at the
scanned value and type name. -/
theorem select_coeffs_error_shape (name : String) (x : ℚ) (tables : List Entry)
    (e : TCError) (h : select_coeffs name x tables = Except.error e) :
    e = TCError.outOfRange x name := by
  rw [select_coeffs_eq_find] at h
  cases hf : tables.find? (fun en => decide (en.1.1 ≤ x ∧ x ≤ en.1.2)) with
  | none => rw [hf] at h; injection h with h1; exact h1.symm
  | some en => rw [hf] at h; exact absurd h (by simp)

/-- Every error of the forward conversion is out-of-range at the input
temperature. -/
theorem temperature_to_voltage_error_shape (tc : ThermocoupleType) (T : ℚ)
    (e : TCError) (h : tc.temperature_to_voltage T = Except.error e) :
    e = TCError.outOfRange T tc.name := by
  rw [temperature_to_voltage_eq] at h
  cases hf : tc.temp_to_microvolt.find? (fun en => decide (en.1.1 ≤ T ∧ T ≤ en.1.2)) with
  | none => rw [hf] at h; injection h with h1; exact h1.symm
  | some en => rw [hf] at h; exact absurd h (by simp)

/-- Every error of the inverse conversion is out-of-range at the
microvolt value. -/
theorem voltage_to_temperature_error_shape (tc : ThermocoupleType) (V : ℚ)
    (e : TCError) (h : tc.voltage_to_temperature V = Except.error e) :
    e = TCError.outOfRange (V * 1000000) tc.name := by
  rw [voltage_to_temperature_eq] at h
  cases hf : tc.microvolt_to_temp.find?
      (fun en => decide (en.1.1 ≤ V * 1000000 ∧ V * 1000000 ≤ en.1.2)) with
  | none => rw [hf] at h; injection h with h1; exact h1.symm
  | some en => rw [hf] at h; exact absurd h (by simp)

/-! ## Claims -/

/-- C1: for every range table and input x, evaluation scans entries in
declared order and selects the first entry whose interval satisfies
lo ≤ x ≤ hi (a value on a boundary shared by two declared intervals
resolves to the first-declared entry), returning the polynomial value
sum of ci times x to the i for the coefficients of that entry; if no
interval contains x, evaluation fails with the out-of-range error and
never returns a value. -/
theorem spec_C1_range_table_evaluation (name : String) (x : ℚ) (tables : List Entry) :
    (select_coeffs name x tables =
      match tables.find? (fun e => decide (e.1.1 ≤ x ∧ x ≤ e.1.2)) with
      | some e => Except.ok e.2
      | none => Except.error (TCError.outOfRange x name))
    ∧ (∀ coeffs : List ℚ,
        polyval coeffs x = ∑ i ∈ Finset.range coeffs.length, coeffs.getD i 0 * x ^ i)
    ∧ ((∀ e ∈ tables, ¬ (e.1.1 ≤ x ∧ x ≤ e.1.2)) →
        select_coeffs name x tables = Except.error (TCError.outOfRange x name)) := by
  refine ⟨select_coeffs_eq_find name x tables, fun c => polyval_eq_sum c x, fun h => ?_⟩
  rw [select_coeffs_eq_find]
  have hn : tables.find? (fun e => decide (e.1.1 ≤ x ∧ x ≤ e.1.2)) = none := by
    rw [List.find?_eq_none]
    intro a ha
    simpa using h a ha
  rw [hn]

/-- C1 witness: concrete out-of-range failure and concrete polynomial
value obtained through the claim theorem. -/
theorem spec_C1_witness :
    select_coeffs "X" 200 [((0, 100), [1, 2])] = Except.error (TCError.outOfRange 200 "X")
    ∧ polyval [1, 2] 3 = 7 := by
  constructor
  · refine (spec_C1_range_table_evaluation "X" 200 [((0, 100), [1, 2])]).2.2 ?_
    intro e he
    rw [List.mem_singleton] at he
    subst he
    norm_num
  · have h := (spec_C1_range_table_evaluation "X" 3 []).2.1 [1, 2]
    rw [h]
    norm_num [Finset.sum_range_succ]

/-- C2: forward conversion equals the selected forward polynomial at T,
plus the forward correction when attached and exactly 0 otherwise, the
sum divided by 1e6, the correction added before the unit scaling; for T
outside every declared forward interval it fails out-of-range. -/
theorem spec_C2_temperature_to_voltage (tc : ThermocoupleType) (T : ℚ) :
    (tc.temperature_to_voltage T =
      match tc.temp_to_microvolt.find? (fun e => decide (e.1.1 ≤ T ∧ T ≤ e.1.2)) with
      | some e => Except.ok ((polyval e.2 T +
          (match tc.microvolt_expo_function with
           | some f => f T
           | none => 0)) / 1000000)
      | none => Except.error (TCError.outOfRange T tc.name))
    ∧ ((∀ e ∈ tc.temp_to_microvolt, ¬ (e.1.1 ≤ T ∧ T ≤ e.1.2)) →
        tc.temperature_to_voltage T = Except.error (TCError.outOfRange T tc.name)) := by
  refine ⟨temperature_to_voltage_eq tc T, fun h => ?_⟩
  rw [temperature_to_voltage_eq]
  have hn : tc.temp_to_microvolt.find? (fun e => decide (e.1.1 ≤ T ∧ T ≤ e.1.2)) = none := by
    rw [List.find?_eq_none]
    intro a ha
    simpa using h a ha
  rw [hn]

/-- C2 witness: the demo model rejects 200 as out of forward range. -/
theorem spec_C2_witness :
    demoTC.temperature_to_voltage 200 = Except.error (TCError.outOfRange 200 "X") := by
  refine (spec_C2_temperature_to_voltage demoTC 200).2 ?_
  intro e he
  have hd : demoTC.temp_to_microvolt = [((0, 100), [0])] := rfl
  rw [hd, List.mem_singleton] at he
  subst he
  norm_num

/-- C3: inverse conversion multiplies V by 1e6, evaluates the inverse
table there, and returns the bare polynomial value with no correction
ever added, whatever corrections the model carries; it fails
out-of-range exactly when the microvolt value lies outside every
declared inverse interval. -/
theorem spec_C3_voltage_to_temperature (tc : ThermocoupleType) (V : ℚ) :
    (tc.voltage_to_temperature V =
      match tc.microvolt_to_temp.find?
          (fun e => decide (e.1.1 ≤ V * 1000000 ∧ V * 1000000 ≤ e.1.2)) with
      | some e => Except.ok (polyval e.2 (V * 1000000))
      | none => Except.error (TCError.outOfRange (V * 1000000) tc.name))
    ∧ ((∃ e, tc.voltage_to_temperature V = Except.error e) ↔
        ∀ en ∈ tc.microvolt_to_temp,
          ¬ (en.1.1 ≤ V * 1000000 ∧ V * 1000000 ≤ en.1.2)) := by
  refine ⟨voltage_to_temperature_eq tc V, ?_⟩
  constructor
  · rintro ⟨e, he⟩
    rw [voltage_to_temperature_eq] at he
    cases hf : tc.microvolt_to_temp.find?
        (fun en => decide (en.1.1 ≤ V * 1000000 ∧ V * 1000000 ≤ en.1.2)) with
    | none =>
        intro a ha
        simpa using List.find?_eq_none.mp hf a ha
    | some en => rw [hf] at he; exact absurd he (by simp)
  · intro hall
    rw [voltage_to_temperature_eq]
    have hn : tc.microvolt_to_temp.find?
        (fun en => decide (en.1.1 ≤ V * 1000000 ∧ V * 1000000 ≤ en.1.2)) = none := by
      rw [List.find?_eq_none]
      intro a ha
      simpa using hall a ha
    rw [hn]
    exact ⟨_, rfl⟩

/-- C3 witness: the demo model rejects 200 microvolts as out of inverse
range. -/
theorem spec_C3_witness :
    ∃ e, demoTC.voltage_to_temperature (200 / 1000000) = Except.error e := by
  refine (spec_C3_voltage_to_temperature demoTC (200 / 1000000)).2.mpr ?_
  intro en hen
  have hd : demoTC.microvolt_to_temp = [((0, 100), [0])] := rfl
  rw [hd, List.mem_singleton] at hen
  subst hen
  norm_num

/-- C4: the compensated conversion computes the reference voltage from
the reference temperature, adds it to the measured voltage, and inverts
the total; it fails exactly when one of the two inner calls fails,
propagating that inner error. -/
theorem spec_C4_cold_junction_compensation (tc : ThermocoupleType) (v_measured t_ref : ℚ) :
    (tc.voltage_to_temperature_with_reference v_measured t_ref =
      match tc.temperature_to_voltage t_ref with
      | Except.ok v_ref => tc.voltage_to_temperature (v_measured + v_ref)
      | Except.error e => Except.error e)
    ∧ (∀ e, tc.voltage_to_temperature_with_reference v_measured t_ref = Except.error e ↔
        (tc.temperature_to_voltage t_ref = Except.error e
         ∨ ∃ v_ref, tc.temperature_to_voltage t_ref = Except.ok v_ref
             ∧ tc.voltage_to_temperature (v_measured + v_ref) = Except.error e)) := by
  refine ⟨with_reference_eq tc v_measured t_ref, fun e => ?_⟩
  rw [with_reference_eq]
  cases hf : tc.temperature_to_voltage t_ref with
  | error e2 => simp
  | ok v_ref => simp

/-! ## Demo model evaluation helpers -/

/-- The demo forward conversion succeeds with value 0 inside [0, 100]. -/
theorem demoTC_forward_ok (t : ℚ) (h1 : 0 ≤ t) (h2 : t ≤ 100) :
    demoTC.temperature_to_voltage t = Except.ok 0 := by
  rw [temperature_to_voltage_eq]
  have hd : demoTC.temp_to_microvolt = [((0, 100), [0])] := rfl
  have hf : demoTC.temp_to_microvolt.find? (fun e => decide (e.1.1 ≤ t ∧ t ≤ e.1.2))
      = some ((0, 100), [0]) := by
    rw [hd]
    exact List.find?_cons_of_pos _ (by simpa using ⟨h1, h2⟩)
  have hex : demoTC.microvolt_expo_function = none := rfl
  rw [hf, hex]
  show Except.ok ((polyval [0] t + 0) / 1000000) = Except.ok 0
  rw [polyval_eq_sum]
  norm_num

/-- The demo forward conversion rejects any temperature outside [0, 100]. -/
theorem demoTC_forward_err (t : ℚ) (h : ¬ (0 ≤ t ∧ t ≤ 100)) :
    demoTC.temperature_to_voltage t = Except.error (TCError.outOfRange t "X") := by
  rw [temperature_to_voltage_eq]
  have hd : demoTC.temp_to_microvolt = [((0, 100), [0])] := rfl
  have hf : demoTC.temp_to_microvolt.find? (fun e => decide (e.1.1 ≤ t ∧ t ≤ e.1.2))
      = none := by
    rw [hd]
    rw [List.find?_cons_of_neg _ (by simpa using h)]
    rfl
  rw [hf]
  rfl

/-- The demo inverse conversion rejects any voltage whose microvolt value
is outside [0, 100]. -/
theorem demoTC_inverse_err (v : ℚ) (h : ¬ (0 ≤ v * 1000000 ∧ v * 1000000 ≤ 100)) :
    demoTC.voltage_to_temperature v
      = Except.error (TCError.outOfRange (v * 1000000) "X") := by
  rw [voltage_to_temperature_eq]
  have hd : demoTC.microvolt_to_temp = [((0, 100), [0])] := rfl
  have hf : demoTC.microvolt_to_temp.find?
      (fun e => decide (e.1.1 ≤ v * 1000000 ∧ v * 1000000 ≤ e.1.2)) = none := by
    rw [hd]
    rw [List.find?_cons_of_neg _ (by simpa using h)]
    rfl
  rw [hf]
  rfl

/-- The compensated demo call at (0, 200) fails inside the forward call
and surfaces the out-of-range error at value 200. -/
theorem demoTC_wref_err_forward :
    demoTC.voltage_to_temperature_with_reference 0 200
      = Except.error (TCError.outOfRange 200 "X") := by
  rw [with_reference_eq, demoTC_forward_err 200 (by norm_num)]

/-- The compensated demo call at (200e-6, 50) passes the forward call and
fails inside the inverse call, surfacing the out-of-range error at the
same value 200. -/
theorem demoTC_wref_err_inverse :
    demoTC.voltage_to_temperature_with_reference (200 / 1000000) 50
      = Except.error (TCError.outOfRange 200 "X") := by
  rw [with_reference_eq, demoTC_forward_ok 50 (by norm_num) (by norm_num)]
  show demoTC.voltage_to_temperature (200 / 1000000 + 0)
      = Except.error (TCError.outOfRange 200 "X")
  rw [demoTC_inverse_err (200 / 1000000 + 0) (by norm_num)]
  have : (200 / 1000000 + (0 : ℚ)) * 1000000 = 200 := by norm_num
  rw [this]

/-- C5 counterexample: the out-of-range error does not carry the identity
of the rejecting table. On the demo model the call (0, 200) fails in the
forward call on the reference temperature while the call (200e-6, 50)
passes the forward call (it returns 0 volts) and fails in the inverse
call, yet both produce the identical error value, so a caller cannot
distinguish from the error alone which inner call failed. -/
theorem spec_C5_counterexample :
    demoTC.voltage_to_temperature_with_reference 0 200
        = Except.error (TCError.outOfRange 200 "X")
    ∧ demoTC.temperature_to_voltage 200
        = Except.error (TCError.outOfRange 200 "X")
    ∧ demoTC.temperature_to_voltage 50 = Except.ok 0
    ∧ demoTC.voltage_to_temperature_with_reference (200 / 1000000) 50
        = Except.error (TCError.outOfRange 200 "X") :=
  ⟨demoTC_wref_err_forward, demoTC_forward_err 200 (by norm_num),
    demoTC_forward_ok 50 (by norm_num) (by norm_num), demoTC_wref_err_inverse⟩

/-- C5 amended: every out-of-range failure of the compensated conversion
carries the offending input value and the thermocouple type name, but
not the identity of the rejecting table (forward versus inverse); the
failing value is the reference temperature when the forward call failed
or the total microvolt value when the inverse call failed, and only
that carried value can differ between the two failure modes. -/
theorem spec_C5_error_payload (tc : ThermocoupleType) (v_measured t_ref : ℚ)
    (e : TCError)
    (h : tc.voltage_to_temperature_with_reference v_measured t_ref = Except.error e) :
    ∃ x, e = TCError.outOfRange x tc.name ∧
      (tc.temperature_to_voltage t_ref = Except.error e ∧ x = t_ref
       ∨ ∃ v_ref, tc.temperature_to_voltage t_ref = Except.ok v_ref
           ∧ x = (v_measured + v_ref) * 1000000) := by
  rw [with_reference_eq] at h
  cases hf : tc.temperature_to_voltage t_ref with
  | error e2 =>
      rw [hf] at h
      injection h with h1
      subst h1
      exact ⟨t_ref, temperature_to_voltage_error_shape tc t_ref _ hf,
        Or.inl ⟨rfl, rfl⟩⟩
  | ok v_ref =>
      rw [hf] at h
      exact ⟨(v_measured + v_ref) * 1000000,
        voltage_to_temperature_error_shape tc (v_measured + v_ref) e h,
        Or.inr ⟨v_ref, rfl, rfl⟩⟩

/-- C5 witness: the amended payload theorem applied to the concrete
failing compensated demo call. -/
theorem spec_C5_witness :
    ∃ x, TCError.outOfRange 200 "X" = TCError.outOfRange x demoTC.name ∧
      (demoTC.temperature_to_voltage 200
          = Except.error (TCError.outOfRange 200 "X") ∧ x = 200
       ∨ ∃ v_ref, demoTC.temperature_to_voltage 200 = Except.ok v_ref
           ∧ x = (0 + v_ref) * 1000000) :=
  spec_C5_error_payload demoTC 0 200 (TCError.outOfRange 200 "X")
    demoTC_wref_err_forward

/-- C6: when the optional table of a requested quantity is absent
(Python-falsy: None or the empty list), the corresponding operation
fails with the not-implemented error naming that quantity and the type,
for every input temperature, and that error is distinguishable from the
out-of-range error. -/
theorem spec_C6_unsupported (tc : ThermocoupleType) (t : ℚ) :
    (tc.temp_to_seebeck = [] →
      tc.temperature_to_seebeck t
        = Except.error (TCError.notImplemented "Seebeck coefficient" tc.name))
    ∧ (tc.temp_to_dsdt = [] →
      tc.temperature_to_dsdt t
        = Except.error (TCError.notImplemented "dSeebeck/dT" tc.name))
    ∧ (optFalsy tc.temp_to_microvolt_pos_leg = true →
      tc.temperature_to_volt_pos_leg t
        = Except.error (TCError.notImplemented "Thermovoltage positive leg" tc.name))
    ∧ (optFalsy tc.temp_to_microvolt_neg_leg = true →
      tc.temperature_to_volt_neg_leg t
        = Except.error (TCError.notImplemented "Thermovoltage negative leg" tc.name))
    ∧ (optFalsy tc.temp_to_seebeck_pos_leg = true →
      tc.temperature_to_seebeck_pos_leg t
        = Except.error (TCError.notImplemented "Seebeck coefficient positive leg" tc.name))
    ∧ (optFalsy tc.temp_to_seebeck_neg_leg = true →
      tc.temperature_to_seebeck_neg_leg t
        = Except.error (TCError.notImplemented "Seebeck coefficient negative leg" tc.name))
    ∧ (∀ q n v m, TCError.notImplemented q n ≠ TCError.outOfRange v m) := by
  refine ⟨?_, ?_, ?_, ?_, ?_, ?_, ?_⟩
  · intro h
    unfold ThermocoupleType.temperature_to_seebeck
    rw [h]
    rfl
  · intro h
    unfold ThermocoupleType.temperature_to_dsdt
    rw [h]
    rfl
  · intro h
    unfold ThermocoupleType.temperature_to_volt_pos_leg
    rw [h]
    rfl
  · intro h
    unfold ThermocoupleType.temperature_to_volt_neg_leg
    rw [h]
    rfl
  · intro h
    unfold ThermocoupleType.temperature_to_seebeck_pos_leg
    rw [h]
    rfl
  · intro h
    unfold ThermocoupleType.temperature_to_seebeck_neg_leg
    rw [h]
    rfl
  · intro q n v m hc
    exact TCError.noConfusion hc

/-- C6 witness: all six optional operations of the capability-free demo
model fail with the quantity-specific not-implemented error at 25. -/
theorem spec_C6_witness :
    demoTC.temperature_to_seebeck 25
        = Except.error (TCError.notImplemented "Seebeck coefficient" "X")
    ∧ demoTC.temperature_to_dsdt 25
        = Except.error (TCError.notImplemented "dSeebeck/dT" "X")
    ∧ demoTC.temperature_to_volt_pos_leg 25
        = Except.error (TCError.notImplemented "Thermovoltage positive leg" "X")
    ∧ demoTC.temperature_to_volt_neg_leg 25
        = Except.error (TCError.notImplemented "Thermovoltage negative leg" "X")
    ∧ demoTC.temperature_to_seebeck_pos_leg 25
        = Except.error (TCError.notImplemented "Seebeck coefficient positive leg" "X")
    ∧ demoTC.temperature_to_seebeck_neg_leg 25
        = Except.error (TCError.notImplemented "Seebeck coefficient negative leg" "X") := by
  have h := spec_C6_unsupported demoTC 25
  exact ⟨h.1 rfl, h.2.1 rfl, h.2.2.1 rfl, h.2.2.2.1 rfl, h.2.2.2.2.1 rfl,
    h.2.2.2.2.2.1 rfl⟩

/-- C10: constructing a model with an empty list for an optional table is
indistinguishable at the public interface from constructing it with
that table absent: the constructor normalises None to the empty list
for the seebeck and dsdt tables and every guard tests falsiness, so
each corresponding operation raises the not-implemented error for every
input — never an out-of-range error and never a value — identically for
the empty-list model and the None model. -/
theorem spec_C10_empty_indistinguishable_from_absent
    (name : String) (fwd inv : List Entry) (mf sf df nf : Option (ℚ → ℚ)) (t : ℚ) :
    ((ThermocoupleType.init name fwd inv (some []) (some []) (some []) (some [])
        (some []) (some []) mf sf df nf).temperature_to_seebeck t
      = Except.error (TCError.notImplemented "Seebeck coefficient" name))
    ∧ ((ThermocoupleType.init name fwd inv (some []) (some []) (some []) (some [])
        (some []) (some []) mf sf df nf).temperature_to_dsdt t
      = Except.error (TCError.notImplemented "dSeebeck/dT" name))
    ∧ ((ThermocoupleType.init name fwd inv (some []) (some []) (some []) (some [])
        (some []) (some []) mf sf df nf).temperature_to_volt_pos_leg t
      = Except.error (TCError.notImplemented "Thermovoltage positive leg" name))
    ∧ ((ThermocoupleType.init name fwd inv (some []) (some []) (some []) (some [])
        (some []) (some []) mf sf df nf).temperature_to_volt_neg_leg t
      = Except.error (TCError.notImplemented "Thermovoltage negative leg" name))
    ∧ ((ThermocoupleType.init name fwd inv (some []) (some []) (some []) (some [])
        (some []) (some []) mf sf df nf).temperature_to_seebeck_pos_leg t
      = Except.error (TCError.notImplemented "Seebeck coefficient positive leg" name))
    ∧ ((ThermocoupleType.init name fwd inv (some []) (some []) (some []) (some [])
        (some []) (some []) mf sf df nf).temperature_to_seebeck_neg_leg t
      = Except.error (TCError.notImplemented "Seebeck coefficient negative leg" name))
    ∧ ((ThermocoupleType.init name fwd inv (some []) (some []) (some []) (some [])
        (some []) (some []) mf sf df nf).temperature_to_seebeck t
      = (ThermocoupleType.init name fwd inv none none none none
          none none mf sf df nf).temperature_to_seebeck t)
    ∧ ((ThermocoupleType.init name fwd inv (some []) (some []) (some []) (some [])
        (some []) (some []) mf sf df nf).temperature_to_dsdt t
      = (ThermocoupleType.init name fwd inv none none none none
          none none mf sf df nf).temperature_to_dsdt t)
    ∧ ((ThermocoupleType.init name fwd inv (some []) (some []) (some []) (some [])
        (some []) (some []) mf sf df nf).temperature_to_volt_pos_leg t
      = (ThermocoupleType.init name fwd inv none none none none
          none none mf sf df nf).temperature_to_volt_pos_leg t)
    ∧ ((ThermocoupleType.init name fwd inv (some []) (some []) (some []) (some [])
        (some []) (some []) mf sf df nf).temperature_to_volt_neg_leg t
      = (ThermocoupleType.init name fwd inv none none none none
          none none mf sf df nf).temperature_to_volt_neg_leg t)
    ∧ ((ThermocoupleType.init name fwd inv (some []) (some []) (some []) (some [])
        (some []) (some []) mf sf df nf).temperature_to_seebeck_pos_leg t
      = (ThermocoupleType.init name fwd inv none none none none
          none none mf sf df nf).temperature_to_seebeck_pos_leg t)
    ∧ ((ThermocoupleType.init name fwd inv (some []) (some []) (some []) (some [])
        (some []) (some []) mf sf df nf).temperature_to_seebeck_neg_leg t
      = (ThermocoupleType.init name fwd inv none none none none
          none none mf sf df nf).temperature_to_seebeck_neg_leg t) :=
  ⟨rfl, rfl, rfl, rfl, rfl, rfl, rfl, rfl, rfl, rfl, rfl, rfl⟩

/-- C7: the eight type codes B, E, J, K, N, R, S, T each resolve through
the registry lookup to their model, and the name of each resolved model
equals the requested code. -/
theorem spec_C7_type_coverage :
    (get_thermocouple "B" = Except.ok TYPE_B ∧ TYPE_B.name = "B")
    ∧ (get_thermocouple "E" = Except.ok TYPE_E ∧ TYPE_E.name = "E")
    ∧ (get_thermocouple "J" = Except.ok TYPE_J ∧ TYPE_J.name = "J")
    ∧ (get_thermocouple "K" = Except.ok TYPE_K ∧ TYPE_K.name = "K")
    ∧ (get_thermocouple "N" = Except.ok TYPE_N ∧ TYPE_N.name = "N")
    ∧ (get_thermocouple "R" = Except.ok TYPE_R ∧ TYPE_R.name = "R")
    ∧ (get_thermocouple "S" = Except.ok TYPE_S ∧ TYPE_S.name = "S")
    ∧ (get_thermocouple "T" = Except.ok TYPE_T ∧ TYPE_T.name = "T") :=
  ⟨⟨rfl, rfl⟩, ⟨rfl, rfl⟩, ⟨rfl, rfl⟩, ⟨rfl, rfl⟩, ⟨rfl, rfl⟩, ⟨rfl, rfl⟩,
    ⟨rfl, rfl⟩, ⟨rfl, rfl⟩⟩

/-- Closed form of the registry lookup. -/
theorem get_thermocouple_eq (s : String) :
    get_thermocouple s =
      match THERMOCOUPLE_TYPES.find? (fun p => p.1 == str_upper s) with
      | some p => Except.ok p.2
      | none => Except.error (TCError.unknownType (str_upper s)
          (String.intercalate ", " (sortedStrings (THERMOCOUPLE_TYPES.map Prod.fst)))) :=
  rfl

/-- The sorted comma-joined listing of the registry codes. -/
theorem available_codes_eq :
    String.intercalate ", " (sortedStrings (THERMOCOUPLE_TYPES.map Prod.fst))
      = "B, E, J, K, N, R, S, T" := rfl

/-- C8: registry lookup is case-insensitive on the type code: a code
whose upper-cased form is one of the eight supported letters resolves
to the corresponding model, and any other code fails with the
unknown-type error whose message payload lists the supported codes. -/
theorem spec_C8_registry_lookup (s : String) :
    (str_upper s = "B" → get_thermocouple s = Except.ok TYPE_B)
    ∧ (str_upper s = "E" → get_thermocouple s = Except.ok TYPE_E)
    ∧ (str_upper s = "J" → get_thermocouple s = Except.ok TYPE_J)
    ∧ (str_upper s = "K" → get_thermocouple s = Except.ok TYPE_K)
    ∧ (str_upper s = "N" → get_thermocouple s = Except.ok TYPE_N)
    ∧ (str_upper s = "R" → get_thermocouple s = Except.ok TYPE_R)
    ∧ (str_upper s = "S" → get_thermocouple s = Except.ok TYPE_S)
    ∧ (str_upper s = "T" → get_thermocouple s = Except.ok TYPE_T)
    ∧ (str_upper s ∉ (["B", "E", "J", "K", "N", "R", "S", "T"] : List String) →
        get_thermocouple s
          = Except.error (TCError.unknownType (str_upper s) "B, E, J, K, N, R, S, T")) := by
  refine ⟨?_, ?_, ?_, ?_, ?_, ?_, ?_, ?_, ?_⟩
  · intro h
    rw [get_thermocouple_eq, h]
    rfl
  · intro h
    rw [get_thermocouple_eq, h]
    rfl
  · intro h
    rw [get_thermocouple_eq, h]
    rfl
  · intro h
    rw [get_thermocouple_eq, h]
    rfl
  · intro h
    rw [get_thermocouple_eq, h]
    rfl
  · intro h
    rw [get_thermocouple_eq, h]
    rfl
  · intro h
    rw [get_thermocouple_eq, h]
    rfl
  · intro h
    rw [get_thermocouple_eq, h]
    rfl
  · intro h
    have hb : ∀ p ∈ THERMOCOUPLE_TYPES, ¬ (p.1 == str_upper s) = true := by
      intro p hp hc
      rw [beq_iff_eq] at hc
      apply h
      rw [← hc]
      simp only [THERMOCOUPLE_TYPES, List.mem_cons, List.not_mem_nil, or_false] at hp
      rcases hp with rfl | rfl | rfl | rfl | rfl | rfl | rfl | rfl <;> simp
    rw [get_thermocouple_eq, List.find?_eq_none.mpr hb, available_codes_eq]

/-- C8 witness: the lower-case code k resolves to the type K model, and
the unsupported code q fails with the unknown-type error listing the
supported codes. -/
theorem spec_C8_witness :
    get_thermocouple "k" = Except.ok TYPE_K
    ∧ get_thermocouple "q"
        = Except.error (TCError.unknownType "Q" "B, E, J, K, N, R, S, T") := by
  constructor
  · exact (spec_C8_registry_lookup "k").2.2.2.1 rfl
  · exact (spec_C8_registry_lookup "q").2.2.2.2.2.2.2.2 (by decide)

/-- Horner-style unfolding of the polynomial evaluator. -/
theorem polyval_cons (c : ℚ) (cs : List ℚ) (x : ℚ) :
    polyval (c :: cs) x = c + x * polyval cs x := by
  show (((0, c) :: cs.enumFrom 1).map (fun p => p.2 * x ^ p.1)).sum = c + x * polyval cs x
  rw [List.map_cons, List.sum_cons, enumFrom_polyval_sum x cs 1, polyval_eq_sum,
    Finset.mul_sum, pow_zero, mul_one]
  congr 1
  refine Finset.sum_congr rfl fun i _ => ?_
  ring

/-- The polynomial evaluator on the empty coefficient list. -/
theorem polyval_nil (x : ℚ) : polyval [] x = 0 := rfl

/-- First-match step: the head entry contains x. -/
theorem find_entry_cons_pos (e : Entry) (rest : List Entry) (x : ℚ)
    (h1 : e.1.1 ≤ x) (h2 : x ≤ e.1.2) :
    (e :: rest).find? (fun en => decide (en.1.1 ≤ x ∧ x ≤ en.1.2)) = some e :=
  List.find?_cons_of_pos _ (by simpa using ⟨h1, h2⟩)

/-- First-match step: the head entry does not contain x. -/
theorem find_entry_cons_neg (e : Entry) (rest : List Entry) (x : ℚ)
    (h : ¬ (e.1.1 ≤ x ∧ x ≤ e.1.2)) :
    (e :: rest).find? (fun en => decide (en.1.1 ≤ x ∧ x ≤ en.1.2))
      = rest.find? (fun en => decide (en.1.1 ≤ x ∧ x ≤ en.1.2)) :=
  List.find?_cons_of_neg _ (by simpa using h)

/-- C9 counterexample: type T is a standard type, the temperature
-201 lies strictly inside its first declared forward interval
(-270, 0) and 69 degrees away from the nearest boundary of the
declared forward domain [-270, 400], yet the forward voltage at
-201 lies below the declared inverse domain, so the round trip
fails with an out-of-range error and returns no value at all - in
particular no value within 0.1 degrees of -201. -/
theorem spec_C9_counterexample :
    ((-270 : ℚ) < -201 ∧ (-201 : ℚ) < 0)
    ∧ (∃ v, TYPE_T.temperature_to_voltage (-201) = Except.ok v
        ∧ ∃ e, TYPE_T.voltage_to_temperature v = Except.error e)
    ∧ (∀ x, round_trip TYPE_T (-201) ≠ Except.ok x) := by
  have hfT201 : TYPE_T.temperature_to_voltage (-201) = Except.ok ((-561863119305432291588860750126796438190473 : ℚ) / 100000000000000000000000000000000000000000000) := by
    rw [temperature_to_voltage_eq]
    have hd : TYPE_T.temp_to_microvolt =
        [((-270, 0), [0.000000000000e00, 3.874810636400e01, 4.419443434700e-02, 1.184432310500e-04, 2.003297355400e-05, 9.013801955900e-07, 2.265115659300e-08, 3.607115420500e-10, 3.849393988300e-12, 2.821352192500e-14, 1.425159477900e-16, 4.876866228600e-19, 1.079553927000e-21, 1.394502706200e-24, 7.979515392700e-28]),
      ((0, 400), [0.000000000000e00, 3.874810636400e01, 3.329222788000e-02, 2.061824340400e-04, -2.188225684600e-06, 1.099688092800e-08, -3.081575877200e-11, 4.547913529000e-14, -2.751290167300e-17])] := rfl
    rw [hd]
    rw [find_entry_cons_pos ((-270, 0), [0.000000000000e00, 3.874810636400e01, 4.419443434700e-02, 1.184432310500e-04, 2.003297355400e-05, 9.013801955900e-07, 2.265115659300e-08, 3.607115420500e-10, 3.849393988300e-12, 2.821352192500e-14, 1.425159477900e-16, 4.876866228600e-19, 1.079553927000e-21, 1.394502706200e-24, 7.979515392700e-28])
        [((0, 400), [0.000000000000e00, 3.874810636400e01, 3.329222788000e-02, 2.061824340400e-04, -2.188225684600e-06, 1.099688092800e-08, -3.081575877200e-11, 4.547913529000e-14, -2.751290167300e-17])] ((-201) : ℚ) (by norm_num) (by norm_num)]
    show Except.ok ((polyval [0.000000000000e00, 3.874810636400e01, 4.419443434700e-02, 1.184432310500e-04, 2.003297355400e-05, 9.013801955900e-07, 2.265115659300e-08, 3.607115420500e-10, 3.849393988300e-12, 2.821352192500e-14, 1.425159477900e-16, 4.876866228600e-19, 1.079553927000e-21, 1.394502706200e-24, 7.979515392700e-28] ((-201) : ℚ) + 0) / 1000000)
        = Except.ok ((-561863119305432291588860750126796438190473 : ℚ) / 100000000000000000000000000000000000000000000)
    norm_num [polyval_cons, polyval_nil]
  have hiT201 : TYPE_T.voltage_to_temperature ((-561863119305432291588860750126796438190473 : ℚ) / 100000000000000000000000000000000000000000000)
      = Except.error (TCError.outOfRange (((-561863119305432291588860750126796438190473 : ℚ) / 100000000000000000000000000000000000000000000) * 1000000) "T") := by
    rw [voltage_to_temperature_eq]
    have hd : TYPE_T.microvolt_to_temp =
        [((-5603, 0), [0.000000000000e00, 2.594919200000e-02, -2.131696700000e-07, 7.901869200000e-10, 4.252777700000e-13, 1.330447300000e-16, 2.024144600000e-20, 1.266817100000e-24]),
      ((0, 20872), [0.000000000000e00, 2.592800000000e-02, -7.602961000000e-07, 4.637791000000e-11, -2.165394000000e-15, 6.048144000000e-20, -7.293422000000e-25])] := rfl
    rw [hd]
    rw [find_entry_cons_neg ((-5603, 0), [0.000000000000e00, 2.594919200000e-02, -2.131696700000e-07, 7.901869200000e-10, 4.252777700000e-13, 1.330447300000e-16, 2.024144600000e-20, 1.266817100000e-24])
        [((0, 20872), [0.000000000000e00, 2.592800000000e-02, -7.602961000000e-07, 4.637791000000e-11, -2.165394000000e-15, 6.048144000000e-20, -7.293422000000e-25])] (((-561863119305432291588860750126796438190473 : ℚ) / 100000000000000000000000000000000000000000000) * 1000000) (by norm_num)]
    rw [find_entry_cons_neg ((0, 20872), [0.000000000000e00, 2.592800000000e-02, -7.602961000000e-07, 4.637791000000e-11, -2.165394000000e-15, 6.048144000000e-20, -7.293422000000e-25])
        [] (((-561863119305432291588860750126796438190473 : ℚ) / 100000000000000000000000000000000000000000000) * 1000000) (by norm_num)]
    rfl
  refine ⟨⟨by norm_num, by norm_num⟩, ⟨_, hfT201, _, hiT201⟩, ?_⟩
  intro x hx
  rw [show round_trip TYPE_T (-201)
      = TYPE_T.temperature_to_voltage (-201) >>= TYPE_T.voltage_to_temperature from rfl,
    hfT201] at hx
  rw [show (Except.ok ((-561863119305432291588860750126796438190473 : ℚ) / 100000000000000000000000000000000000000000000) >>= TYPE_T.voltage_to_temperature)
      = TYPE_T.voltage_to_temperature ((-561863119305432291588860750126796438190473 : ℚ) / 100000000000000000000000000000000000000000000) from rfl, hiT201] at hx
  exact Except.noConfusion hx

/-- C9 amended: at the interior checkpoints the tests exercise, the
round trip is within tolerance in exact rational arithmetic: within
0.1 degrees at 25 degrees for types J, T and N, and within 0.5
degrees for type B at 500 degrees and types R and S at 200 degrees.
(The universal form over all interior temperatures is false on the
code: see the counterexample theorem.) -/
theorem spec_C9_round_trip_checkpoints :
    (∃ x, round_trip TYPE_J 25 = Except.ok x ∧ |x - 25| < (1 : ℚ) / 10)
    ∧ (∃ x, round_trip TYPE_T 25 = Except.ok x ∧ |x - 25| < (1 : ℚ) / 10)
    ∧ (∃ x, round_trip TYPE_N 25 = Except.ok x ∧ |x - 25| < (1 : ℚ) / 10)
    ∧ (∃ x, round_trip TYPE_B 500 = Except.ok x ∧ |x - 500| < (1 : ℚ) / 2)
    ∧ (∃ x, round_trip TYPE_R 200 = Except.ok x ∧ |x - 200| < (1 : ℚ) / 2)
    ∧ (∃ x, round_trip TYPE_S 200 = Except.ok x ∧ |x - 200| < (1 : ℚ) / 2) := by
  have hfJ : TYPE_J.temperature_to_voltage 25 = Except.ok ((8370837156621093063297 : ℚ) / 6553600000000000000000000) := by
    rw [temperature_to_voltage_eq]
    have hd : TYPE_J.temp_to_microvolt =
        [((-210, 760), [0.000000000000e00, 5.038118781500e01, 3.047583693000e-02, -8.568106572000e-05, 1.322819529500e-07, -1.705295833700e-10, 2.094809069700e-13, -1.253839533600e-16, 1.563172569700e-20]),
      ((760, 1200), [2.964562568100e05, -1.497612778600e03, 3.178710392400e00, -3.184768670100e-03, 1.572081900400e-06, -3.069136905600e-10])] := rfl
    rw [hd]
    rw [find_entry_cons_pos ((-210, 760), [0.000000000000e00, 5.038118781500e01, 3.047583693000e-02, -8.568106572000e-05, 1.322819529500e-07, -1.705295833700e-10, 2.094809069700e-13, -1.253839533600e-16, 1.563172569700e-20])
        [((760, 1200), [2.964562568100e05, -1.497612778600e03, 3.178710392400e00, -3.184768670100e-03, 1.572081900400e-06, -3.069136905600e-10])] (25 : ℚ) (by norm_num) (by norm_num)]
    show Except.ok ((polyval [0.000000000000e00, 5.038118781500e01, 3.047583693000e-02, -8.568106572000e-05, 1.322819529500e-07, -1.705295833700e-10, 2.094809069700e-13, -1.253839533600e-16, 1.563172569700e-20] (25 : ℚ) + 0) / 1000000)
        = Except.ok ((8370837156621093063297 : ℚ) / 6553600000000000000000000)
    norm_num [polyval_cons, polyval_nil]
  have hiJ : TYPE_J.voltage_to_temperature ((8370837156621093063297 : ℚ) / 6553600000000000000000000) = Except.ok ((12962384979841525808977434171251235817715055025429893026436633887898797465122062661613234073235089650397883515603526918273325175538104618535822386937151570524391722805157 : ℚ) / 519229685853482762853049632922009600000000000000000000000000000000000000000000000000000000000000000000000000000000000000000000000000000000000000000000000000000000000000) := by
    rw [voltage_to_temperature_eq]
    have hd : TYPE_J.microvolt_to_temp =
        [((-8095, 0), [0.000000000000e00, 1.952826800000e-02, -1.228618500000e-06, -1.075217800000e-09, -5.908693300000e-13, -1.725671300000e-16, -2.813151300000e-20, -2.396337000000e-24, -8.382332100000e-29]),
      ((0, 42919), [0.000000000000e00, 1.978425000000e-02, -2.001204000000e-07, 1.036969000000e-11, -2.549687000000e-16, 3.585153000000e-21, -5.344285000000e-26, 5.099890000000e-31]),
      ((42919, 69553), [-3.113581870000e03, 3.005436840000e-01, -9.947732300000e-06, 1.702766300000e-10, -1.430334680000e-15, 4.738860840000e-21])] := rfl
    rw [hd]
    rw [find_entry_cons_neg ((-8095, 0), [0.000000000000e00, 1.952826800000e-02, -1.228618500000e-06, -1.075217800000e-09, -5.908693300000e-13, -1.725671300000e-16, -2.813151300000e-20, -2.396337000000e-24, -8.382332100000e-29])
        [((0, 42919), [0.000000000000e00, 1.978425000000e-02, -2.001204000000e-07, 1.036969000000e-11, -2.549687000000e-16, 3.585153000000e-21, -5.344285000000e-26, 5.099890000000e-31]),
      ((42919, 69553), [-3.113581870000e03, 3.005436840000e-01, -9.947732300000e-06, 1.702766300000e-10, -1.430334680000e-15, 4.738860840000e-21])] (((8370837156621093063297 : ℚ) / 6553600000000000000000000) * 1000000) (by norm_num)]
    rw [find_entry_cons_pos ((0, 42919), [0.000000000000e00, 1.978425000000e-02, -2.001204000000e-07, 1.036969000000e-11, -2.549687000000e-16, 3.585153000000e-21, -5.344285000000e-26, 5.099890000000e-31])
        [((42919, 69553), [-3.113581870000e03, 3.005436840000e-01, -9.947732300000e-06, 1.702766300000e-10, -1.430334680000e-15, 4.738860840000e-21])] (((8370837156621093063297 : ℚ) / 6553600000000000000000000) * 1000000) (by norm_num) (by norm_num)]
    show Except.ok (polyval [0.000000000000e00, 1.978425000000e-02, -2.001204000000e-07, 1.036969000000e-11, -2.549687000000e-16, 3.585153000000e-21, -5.344285000000e-26, 5.099890000000e-31] (((8370837156621093063297 : ℚ) / 6553600000000000000000000) * 1000000))
        = Except.ok ((12962384979841525808977434171251235817715055025429893026436633887898797465122062661613234073235089650397883515603526918273325175538104618535822386937151570524391722805157 : ℚ) / 519229685853482762853049632922009600000000000000000000000000000000000000000000000000000000000000000000000000000000000000000000000000000000000000000000000000000000000000)
    norm_num [polyval_cons, polyval_nil]
  have hfT : TYPE_T.temperature_to_voltage 25 = Except.ok ((6501022222385226727 : ℚ) / 6553600000000000000000) := by
    rw [temperature_to_voltage_eq]
    have hd : TYPE_T.temp_to_microvolt =
        [((-270, 0), [0.000000000000e00, 3.874810636400e01, 4.419443434700e-02, 1.184432310500e-04, 2.003297355400e-05, 9.013801955900e-07, 2.265115659300e-08, 3.607115420500e-10, 3.849393988300e-12, 2.821352192500e-14, 1.425159477900e-16, 4.876866228600e-19, 1.079553927000e-21, 1.394502706200e-24, 7.979515392700e-28]),
      ((0, 400), [0.000000000000e00, 3.874810636400e01, 3.329222788000e-02, 2.061824340400e-04, -2.188225684600e-06, 1.099688092800e-08, -3.081575877200e-11, 4.547913529000e-14, -2.751290167300e-17])] := rfl
    rw [hd]
    rw [find_entry_cons_neg ((-270, 0), [0.000000000000e00, 3.874810636400e01, 4.419443434700e-02, 1.184432310500e-04, 2.003297355400e-05, 9.013801955900e-07, 2.265115659300e-08, 3.607115420500e-10, 3.849393988300e-12, 2.821352192500e-14, 1.425159477900e-16, 4.876866228600e-19, 1.079553927000e-21, 1.394502706200e-24, 7.979515392700e-28])
        [((0, 400), [0.000000000000e00, 3.874810636400e01, 3.329222788000e-02, 2.061824340400e-04, -2.188225684600e-06, 1.099688092800e-08, -3.081575877200e-11, 4.547913529000e-14, -2.751290167300e-17])] (25 : ℚ) (by norm_num)]
    rw [find_entry_cons_pos ((0, 400), [0.000000000000e00, 3.874810636400e01, 3.329222788000e-02, 2.061824340400e-04, -2.188225684600e-06, 1.099688092800e-08, -3.081575877200e-11, 4.547913529000e-14, -2.751290167300e-17])
        [] (25 : ℚ) (by norm_num) (by norm_num)]
    show Except.ok ((polyval [0.000000000000e00, 3.874810636400e01, 3.329222788000e-02, 2.061824340400e-04, -2.188225684600e-06, 1.099688092800e-08, -3.081575877200e-11, 4.547913529000e-14, -2.751290167300e-17] (25 : ℚ) + 0) / 1000000)
        = Except.ok ((6501022222385226727 : ℚ) / 6553600000000000000000)
    norm_num [polyval_cons, polyval_nil]
  have hiT : TYPE_T.voltage_to_temperature ((6501022222385226727 : ℚ) / 6553600000000000000000) = Except.ok ((9909491003868493999766600006269279125055162537858241380725987982479146786826681508689428731609643515225376912977153320023592921 : ℚ) / 396140812571321687967719751680000000000000000000000000000000000000000000000000000000000000000000000000000000000000000000000000) := by
    rw [voltage_to_temperature_eq]
    have hd : TYPE_T.microvolt_to_temp =
        [((-5603, 0), [0.000000000000e00, 2.594919200000e-02, -2.131696700000e-07, 7.901869200000e-10, 4.252777700000e-13, 1.330447300000e-16, 2.024144600000e-20, 1.266817100000e-24]),
      ((0, 20872), [0.000000000000e00, 2.592800000000e-02, -7.602961000000e-07, 4.637791000000e-11, -2.165394000000e-15, 6.048144000000e-20, -7.293422000000e-25])] := rfl
    rw [hd]
    rw [find_entry_cons_neg ((-5603, 0), [0.000000000000e00, 2.594919200000e-02, -2.131696700000e-07, 7.901869200000e-10, 4.252777700000e-13, 1.330447300000e-16, 2.024144600000e-20, 1.266817100000e-24])
        [((0, 20872), [0.000000000000e00, 2.592800000000e-02, -7.602961000000e-07, 4.637791000000e-11, -2.165394000000e-15, 6.048144000000e-20, -7.293422000000e-25])] (((6501022222385226727 : ℚ) / 6553600000000000000000) * 1000000) (by norm_num)]
    rw [find_entry_cons_pos ((0, 20872), [0.000000000000e00, 2.592800000000e-02, -7.602961000000e-07, 4.637791000000e-11, -2.165394000000e-15, 6.048144000000e-20, -7.293422000000e-25])
        [] (((6501022222385226727 : ℚ) / 6553600000000000000000) * 1000000) (by norm_num) (by norm_num)]
    show Except.ok (polyval [0.000000000000e00, 2.592800000000e-02, -7.602961000000e-07, 4.637791000000e-11, -2.165394000000e-15, 6.048144000000e-20, -7.293422000000e-25] (((6501022222385226727 : ℚ) / 6553600000000000000000) * 1000000))
        = Except.ok ((9909491003868493999766600006269279125055162537858241380725987982479146786826681508689428731609643515225376912977153320023592921 : ℚ) / 396140812571321687967719751680000000000000000000000000000000000000000000000000000000000000000000000000000000000000000000000000)
    norm_num [polyval_cons, polyval_nil]
  have hfN : TYPE_N.temperature_to_voltage 25 = Except.ok ((6906402239286868146707449 : ℚ) / 10485760000000000000000000000) := by
    rw [temperature_to_voltage_eq]
    have hd : TYPE_N.temp_to_microvolt =
        [((-270, 0), [0.000000000000e00, 2.615910596200e01, 1.095748422800e-02, -9.384111155400e-05, -4.641203975900e-06, -2.630335771600e-07, -2.265343800300e-09, -7.608930079100e-12, -9.341966783500e-15]),
      ((0, 1300), [0.000000000000e00, 2.592939460100e01, 1.571014188000e-02, 4.382562723700e-05, -2.526116979400e-07, 6.431181933900e-10, -1.006347151900e-12, 9.974533899200e-16, -6.086324560700e-19, 2.084922933900e-22, -3.068219615100e-26])] := rfl
    rw [hd]
    rw [find_entry_cons_neg ((-270, 0), [0.000000000000e00, 2.615910596200e01, 1.095748422800e-02, -9.384111155400e-05, -4.641203975900e-06, -2.630335771600e-07, -2.265343800300e-09, -7.608930079100e-12, -9.341966783500e-15])
        [((0, 1300), [0.000000000000e00, 2.592939460100e01, 1.571014188000e-02, 4.382562723700e-05, -2.526116979400e-07, 6.431181933900e-10, -1.006347151900e-12, 9.974533899200e-16, -6.086324560700e-19, 2.084922933900e-22, -3.068219615100e-26])] (25 : ℚ) (by norm_num)]
    rw [find_entry_cons_pos ((0, 1300), [0.000000000000e00, 2.592939460100e01, 1.571014188000e-02, 4.382562723700e-05, -2.526116979400e-07, 6.431181933900e-10, -1.006347151900e-12, 9.974533899200e-16, -6.086324560700e-19, 2.084922933900e-22, -3.068219615100e-26])
        [] (25 : ℚ) (by norm_num) (by norm_num)]
    show Except.ok ((polyval [0.000000000000e00, 2.592939460100e01, 1.571014188000e-02, 4.382562723700e-05, -2.526116979400e-07, 6.431181933900e-10, -1.006347151900e-12, 9.974533899200e-16, -6.086324560700e-19, 2.084922933900e-22, -3.068219615100e-26] (25 : ℚ) + 0) / 1000000)
        = Except.ok ((6906402239286868146707449 : ℚ) / 10485760000000000000000000000)
    norm_num [polyval_cons, polyval_nil]
  have hiN : TYPE_N.voltage_to_temperature ((6906402239286868146707449 : ℚ) / 10485760000000000000000000000) = Except.ok ((872044423114676280774019925110723661966470925133504530274666502159158257119080139703818742060740077904198428720162913615133454768709679971097054907721014853225810381137825367012952928563189 : ℚ) / 34844914372704098658649559801013064853094400000000000000000000000000000000000000000000000000000000000000000000000000000000000000000000000000000000000000000000000000000000000000000000000000) := by
    rw [voltage_to_temperature_eq]
    have hd : TYPE_N.microvolt_to_temp =
        [((-3990, 0), [0.000000000000e00, 3.843684700000e-02, 1.101048500000e-06, 5.222931200000e-09, 7.206052500000e-13, 5.848858600000e-15, 2.775491600000e-18, 7.707516600000e-22, 1.158266500000e-25, 7.313886800000e-30]),
      ((0, 20613), [0.000000000000e00, 3.868960000000e-02, -1.082670000000e-06, 4.702050000000e-11, -2.121690000000e-16, -1.172720000000e-19, 5.392800000000e-24, -7.981560000000e-29]),
      ((20613, 47513), [1.972485000000e01, 3.300943000000e-02, -3.915159000000e-07, 9.855391000000e-12, -1.274371000000e-16, 7.767022000000e-22]),
      ((0, 47513), [0.000000000000e00, 3.876327700000e-02, -1.161234400000e-06, 6.952565500000e-11, -3.009007700000e-15, 8.831158400000e-20, -1.621383900000e-24, 1.669336200000e-29, -7.311754000000e-35])] := rfl
    rw [hd]
    rw [find_entry_cons_neg ((-3990, 0), [0.000000000000e00, 3.843684700000e-02, 1.101048500000e-06, 5.222931200000e-09, 7.206052500000e-13, 5.848858600000e-15, 2.775491600000e-18, 7.707516600000e-22, 1.158266500000e-25, 7.313886800000e-30])
        [((0, 20613), [0.000000000000e00, 3.868960000000e-02, -1.082670000000e-06, 4.702050000000e-11, -2.121690000000e-16, -1.172720000000e-19, 5.392800000000e-24, -7.981560000000e-29]),
      ((20613, 47513), [1.972485000000e01, 3.300943000000e-02, -3.915159000000e-07, 9.855391000000e-12, -1.274371000000e-16, 7.767022000000e-22]),
      ((0, 47513), [0.000000000000e00, 3.876327700000e-02, -1.161234400000e-06, 6.952565500000e-11, -3.009007700000e-15, 8.831158400000e-20, -1.621383900000e-24, 1.669336200000e-29, -7.311754000000e-35])] (((6906402239286868146707449 : ℚ) / 10485760000000000000000000000) * 1000000) (by norm_num)]
    rw [find_entry_cons_pos ((0, 20613), [0.000000000000e00, 3.868960000000e-02, -1.082670000000e-06, 4.702050000000e-11, -2.121690000000e-16, -1.172720000000e-19, 5.392800000000e-24, -7.981560000000e-29])
        [((20613, 47513), [1.972485000000e01, 3.300943000000e-02, -3.915159000000e-07, 9.855391000000e-12, -1.274371000000e-16, 7.767022000000e-22]),
      ((0, 47513), [0.000000000000e00, 3.876327700000e-02, -1.161234400000e-06, 6.952565500000e-11, -3.009007700000e-15, 8.831158400000e-20, -1.621383900000e-24, 1.669336200000e-29, -7.311754000000e-35])] (((6906402239286868146707449 : ℚ) / 10485760000000000000000000000) * 1000000) (by norm_num) (by norm_num)]
    show Except.ok (polyval [0.000000000000e00, 3.868960000000e-02, -1.082670000000e-06, 4.702050000000e-11, -2.121690000000e-16, -1.172720000000e-19, 5.392800000000e-24, -7.981560000000e-29] (((6906402239286868146707449 : ℚ) / 10485760000000000000000000000) * 1000000))
        = Except.ok ((872044423114676280774019925110723661966470925133504530274666502159158257119080139703818742060740077904198428720162913615133454768709679971097054907721014853225810381137825367012952928563189 : ℚ) / 34844914372704098658649559801013064853094400000000000000000000000000000000000000000000000000000000000000000000000000000000000000000000000000000000000000000000000000000000000000000000000000)
    norm_num [polyval_cons, polyval_nil]
  have hfB : TYPE_B.temperature_to_voltage 500 = Except.ok ((3973919053871 : ℚ) / 3200000000000000) := by
    rw [temperature_to_voltage_eq]
    have hd : TYPE_B.temp_to_microvolt =
        [((0, 630.615), [0.000000000000e00, -2.465081834600e-01, 5.904042117100e-03, -1.325793163600e-06, 1.566829190100e-09, -1.694452924000e-12, 6.299034709400e-16]),
      ((630.615, 1820), [-3.893816862100e03, 2.857174747000e-01, -8.488510478500e-05, 1.578528016400e-04, -1.683534486400e-07, 1.110979401300e-10, -4.451543103300e-14, 9.897564082100e-18, -9.379133028900e-22])] := rfl
    rw [hd]
    rw [find_entry_cons_pos ((0, 630.615), [0.000000000000e00, -2.465081834600e-01, 5.904042117100e-03, -1.325793163600e-06, 1.566829190100e-09, -1.694452924000e-12, 6.299034709400e-16])
        [((630.615, 1820), [-3.893816862100e03, 2.857174747000e-01, -8.488510478500e-05, 1.578528016400e-04, -1.683534486400e-07, 1.110979401300e-10, -4.451543103300e-14, 9.897564082100e-18, -9.379133028900e-22])] (500 : ℚ) (by norm_num) (by norm_num)]
    show Except.ok ((polyval [0.000000000000e00, -2.465081834600e-01, 5.904042117100e-03, -1.325793163600e-06, 1.566829190100e-09, -1.694452924000e-12, 6.299034709400e-16] (500 : ℚ) + 0) / 1000000)
        = Except.ok ((3973919053871 : ℚ) / 3200000000000000)
    norm_num [polyval_cons, polyval_nil]
  have hiB : TYPE_B.voltage_to_temperature ((3973919053871 : ℚ) / 3200000000000000) = Except.ok ((2748802291026503777157284620998607480552328517528788484836897875329344614974299702055186019198951875477183977 : ℚ) / 5497558138880000000000000000000000000000000000000000000000000000000000000000000000000000000000000000000000) := by
    rw [voltage_to_temperature_eq]
    have hd : TYPE_B.microvolt_to_temp =
        [((291, 2431), [9.842332100e01, 6.997150000e-01, -8.476530400e-04, 1.005264400e-06, -8.334595200e-10, 4.550854200e-13, -1.552303700e-16, 2.988675000e-20, -2.474286000e-24]),
      ((2431, 13820), [2.131507100e02, 2.851050400e-01, -5.274288700e-05, 9.916080400e-09, -1.296530300e-12, 1.119587000e-16, -6.062519900e-21, 1.866169600e-25, -2.487858500e-30])] := rfl
    rw [hd]
    rw [find_entry_cons_pos ((291, 2431), [9.842332100e01, 6.997150000e-01, -8.476530400e-04, 1.005264400e-06, -8.334595200e-10, 4.550854200e-13, -1.552303700e-16, 2.988675000e-20, -2.474286000e-24])
        [((2431, 13820), [2.131507100e02, 2.851050400e-01, -5.274288700e-05, 9.916080400e-09, -1.296530300e-12, 1.119587000e-16, -6.062519900e-21, 1.866169600e-25, -2.487858500e-30])] (((3973919053871 : ℚ) / 3200000000000000) * 1000000) (by norm_num) (by norm_num)]
    show Except.ok (polyval [9.842332100e01, 6.997150000e-01, -8.476530400e-04, 1.005264400e-06, -8.334595200e-10, 4.550854200e-13, -1.552303700e-16, 2.988675000e-20, -2.474286000e-24] (((3973919053871 : ℚ) / 3200000000000000) * 1000000))
        = Except.ok ((2748802291026503777157284620998607480552328517528788484836897875329344614974299702055186019198951875477183977 : ℚ) / 5497558138880000000000000000000000000000000000000000000000000000000000000000000000000000000000000000000000)
    norm_num [polyval_cons, polyval_nil]
  have hfR : TYPE_R.temperature_to_voltage 200 = Except.ok ((143416312078414237 : ℚ) / 97656250000000000000) := by
    rw [temperature_to_voltage_eq]
    have hd : TYPE_R.temp_to_microvolt =
        [((-50, 1064.18), [0.000000000000e00, 5.289617297650e00, 1.391665897820e-02, -2.388556930170e-05, 3.569160010630e-08, -4.623476662980e-11, 5.007774410340e-14, -3.731058861910e-17, 1.577164823670e-20, -2.810386252510e-24]),
      ((1064.18, 1664.5), [2.951579253160e03, -2.520612513320e00, 1.595645018650e-02, -7.640859475760e-06, 2.053052910240e-09, -2.933596681730e-13]),
      ((1664.5, 1768.1), [1.522321182090e05, -2.688198885450e02, 1.712802804710e-01, -3.458957064530e-05, -9.346339710460e-12])] := rfl
    rw [hd]
    rw [find_entry_cons_pos ((-50, 1064.18), [0.000000000000e00, 5.289617297650e00, 1.391665897820e-02, -2.388556930170e-05, 3.569160010630e-08, -4.623476662980e-11, 5.007774410340e-14, -3.731058861910e-17, 1.577164823670e-20, -2.810386252510e-24])
        [((1064.18, 1664.5), [2.951579253160e03, -2.520612513320e00, 1.595645018650e-02, -7.640859475760e-06, 2.053052910240e-09, -2.933596681730e-13]),
      ((1664.5, 1768.1), [1.522321182090e05, -2.688198885450e02, 1.712802804710e-01, -3.458957064530e-05, -9.346339710460e-12])] (200 : ℚ) (by norm_num) (by norm_num)]
    show Except.ok ((polyval [0.000000000000e00, 5.289617297650e00, 1.391665897820e-02, -2.388556930170e-05, 3.569160010630e-08, -4.623476662980e-11, 5.007774410340e-14, -3.731058861910e-17, 1.577164823670e-20, -2.810386252510e-24] (200 : ℚ) + 0) / 1000000)
        = Except.ok ((143416312078414237 : ℚ) / 97656250000000000000)
    norm_num [polyval_cons, polyval_nil]
  have hiR : TYPE_R.voltage_to_temperature ((143416312078414237 : ℚ) / 97656250000000000000) = Except.ok ((157775840023451016230703481440351437030796376228352227674877543863092764041755770320272267963058920580093944783451969914880165125702461546451856933246665173272935690953885091465119 : ℚ) / 788860905221011805411728565282786229673206435109023004770278930664062500000000000000000000000000000000000000000000000000000000000000000000000000000000000000000000000000000000000) := by
    rw [voltage_to_temperature_eq]
    have hd : TYPE_R.microvolt_to_temp =
        [((-226, 1923), [0.0000000000e00, 1.8891380000e-01, -9.3835290000e-05, 1.3068619000e-07, -2.2703580000e-10, 3.5145659000e-13, -3.8953900000e-16, 2.8239471000e-19, -1.2607281000e-22, 3.1353611000e-26, -3.3187769000e-30]),
      ((1923, 13228), [1.334584505000e01, 1.472644573000e-01, -1.844024844000e-05, 4.031129726000e-09, -6.249428360000e-13, 6.468412046000e-17, -4.458750426000e-21, 1.994710149000e-25, -5.313401790000e-30, 6.481976217000e-35]),
      ((11361, 19739), [-8.199599416000e01, 1.553962042000e-01, -8.342197663000e-06, 4.279433549000e-10, -1.191577910000e-14, 1.492290091000e-19]),
      ((19739, 21103), [3.406177836000e01, -7.023729171000e-03, 5.582903813000e-06, -1.952394635000e-09, 2.560740231000e-13])] := rfl
    rw [hd]
    rw [find_entry_cons_pos ((-226, 1923), [0.0000000000e00, 1.8891380000e-01, -9.3835290000e-05, 1.3068619000e-07, -2.2703580000e-10, 3.5145659000e-13, -3.8953900000e-16, 2.8239471000e-19, -1.2607281000e-22, 3.1353611000e-26, -3.3187769000e-30])
        [((1923, 13228), [1.334584505000e01, 1.472644573000e-01, -1.844024844000e-05, 4.031129726000e-09, -6.249428360000e-13, 6.468412046000e-17, -4.458750426000e-21, 1.994710149000e-25, -5.313401790000e-30, 6.481976217000e-35]),
      ((11361, 19739), [-8.199599416000e01, 1.553962042000e-01, -8.342197663000e-06, 4.279433549000e-10, -1.191577910000e-14, 1.492290091000e-19]),
      ((19739, 21103), [3.406177836000e01, -7.023729171000e-03, 5.582903813000e-06, -1.952394635000e-09, 2.560740231000e-13])] (((143416312078414237 : ℚ) / 97656250000000000000) * 1000000) (by norm_num) (by norm_num)]
    show Except.ok (polyval [0.0000000000e00, 1.8891380000e-01, -9.3835290000e-05, 1.3068619000e-07, -2.2703580000e-10, 3.5145659000e-13, -3.8953900000e-16, 2.8239471000e-19, -1.2607281000e-22, 3.1353611000e-26, -3.3187769000e-30] (((143416312078414237 : ℚ) / 97656250000000000000) * 1000000))
        = Except.ok ((157775840023451016230703481440351437030796376228352227674877543863092764041755770320272267963058920580093944783451969914880165125702461546451856933246665173272935690953885091465119 : ℚ) / 788860905221011805411728565282786229673206435109023004770278930664062500000000000000000000000000000000000000000000000000000000000000000000000000000000000000000000000000000000000)
    norm_num [polyval_cons, polyval_nil]
  have hfS : TYPE_S.temperature_to_voltage 200 = Except.ok ((5628057619818237 : ℚ) / 3906250000000000000) := by
    rw [temperature_to_voltage_eq]
    have hd : TYPE_S.temp_to_microvolt =
        [((-50, 1064.18), [0.000000000000e00, 5.403133086310e00, 1.259342897400e-02, -2.324779686890e-05, 3.220288230360e-08, -3.314651963890e-11, 2.557442517860e-14, -1.250688713930e-17, 2.714431761450e-21]),
      ((1064.18, 1664.5), [1.329004440850e03, 3.345093113440e00, 6.548051928180e-03, -1.648562592090e-06, 1.299896051740e-11]),
      ((1664.5, 1768.1), [1.466282326360e05, -2.584305167520e02, 1.636935746410e-01, -3.304390469870e-05, -9.432236906120e-12])] := rfl
    rw [hd]
    rw [find_entry_cons_pos ((-50, 1064.18), [0.000000000000e00, 5.403133086310e00, 1.259342897400e-02, -2.324779686890e-05, 3.220288230360e-08, -3.314651963890e-11, 2.557442517860e-14, -1.250688713930e-17, 2.714431761450e-21])
        [((1064.18, 1664.5), [1.329004440850e03, 3.345093113440e00, 6.548051928180e-03, -1.648562592090e-06, 1.299896051740e-11]),
      ((1664.5, 1768.1), [1.466282326360e05, -2.584305167520e02, 1.636935746410e-01, -3.304390469870e-05, -9.432236906120e-12])] (200 : ℚ) (by norm_num) (by norm_num)]
    show Except.ok ((polyval [0.000000000000e00, 5.403133086310e00, 1.259342897400e-02, -2.324779686890e-05, 3.220288230360e-08, -3.314651963890e-11, 2.557442517860e-14, -1.250688713930e-17, 2.714431761450e-21] (200 : ℚ) + 0) / 1000000)
        = Except.ok ((5628057619818237 : ℚ) / 3906250000000000000)
    norm_num [polyval_cons, polyval_nil]
  have hiS : TYPE_S.voltage_to_temperature ((5628057619818237 : ℚ) / 3906250000000000000) = Except.ok ((211752775754665353240961639601833102026425350499977979114431102933658363376203187331179513275237924150777935657222881561393104837520056075683678689501 : ℚ) / 1058791184067875423835403125849552452564239501953125000000000000000000000000000000000000000000000000000000000000000000000000000000000000000000000000) := by
    rw [voltage_to_temperature_eq]
    have hd : TYPE_S.microvolt_to_temp =
        [((-235, 1874), [0.000000000000e00, 1.849494600000e-01, -8.005040620000e-05, 1.022374300000e-07, -1.522485920000e-10, 1.888213430000e-13, -1.590859410000e-16, 8.230278800000e-20, -2.341819440000e-23, 2.797862600000e-27]),
      ((1874, 11950), [1.291507177000e01, 1.466298863000e-01, -1.534713402000e-05, 3.145945973000e-09, -4.163257839000e-13, 3.187963771000e-17, -1.291637500000e-21, 2.183475087000e-26, -1.447379511000e-31, 8.211272125000e-36]),
      ((10332, 17536), [-8.087801117000e01, 1.621573104000e-01, -8.536869453000e-06, 4.719686976000e-10, -1.441693666000e-14, 2.081618890000e-19]),
      ((17536, 18693), [5.333875126000e01, -1.235892298000e-02, 1.092657613000e-06, -4.265693686000e-09, 6.247205420000e-13])] := rfl
    rw [hd]
    rw [find_entry_cons_pos ((-235, 1874), [0.000000000000e00, 1.849494600000e-01, -8.005040620000e-05, 1.022374300000e-07, -1.522485920000e-10, 1.888213430000e-13, -1.590859410000e-16, 8.230278800000e-20, -2.341819440000e-23, 2.797862600000e-27])
        [((1874, 11950), [1.291507177000e01, 1.466298863000e-01, -1.534713402000e-05, 3.145945973000e-09, -4.163257839000e-13, 3.187963771000e-17, -1.291637500000e-21, 2.183475087000e-26, -1.447379511000e-31, 8.211272125000e-36]),
      ((10332, 17536), [-8.087801117000e01, 1.621573104000e-01, -8.536869453000e-06, 4.719686976000e-10, -1.441693666000e-14, 2.081618890000e-19]),
      ((17536, 18693), [5.333875126000e01, -1.235892298000e-02, 1.092657613000e-06, -4.265693686000e-09, 6.247205420000e-13])] (((5628057619818237 : ℚ) / 3906250000000000000) * 1000000) (by norm_num) (by norm_num)]
    show Except.ok (polyval [0.000000000000e00, 1.849494600000e-01, -8.005040620000e-05, 1.022374300000e-07, -1.522485920000e-10, 1.888213430000e-13, -1.590859410000e-16, 8.230278800000e-20, -2.341819440000e-23, 2.797862600000e-27] (((5628057619818237 : ℚ) / 3906250000000000000) * 1000000))
        = Except.ok ((211752775754665353240961639601833102026425350499977979114431102933658363376203187331179513275237924150777935657222881561393104837520056075683678689501 : ℚ) / 1058791184067875423835403125849552452564239501953125000000000000000000000000000000000000000000000000000000000000000000000000000000000000000000000000)
    norm_num [polyval_cons, polyval_nil]
  refine ⟨?_, ?_, ?_, ?_, ?_, ?_⟩
  · refine ⟨((12962384979841525808977434171251235817715055025429893026436633887898797465122062661613234073235089650397883515603526918273325175538104618535822386937151570524391722805157 : ℚ) / 519229685853482762853049632922009600000000000000000000000000000000000000000000000000000000000000000000000000000000000000000000000000000000000000000000000000000000000000), ?_, by rw [abs_lt]; exact ⟨by norm_num, by norm_num⟩⟩
    show TYPE_J.temperature_to_voltage 25 >>= TYPE_J.voltage_to_temperature
        = Except.ok ((12962384979841525808977434171251235817715055025429893026436633887898797465122062661613234073235089650397883515603526918273325175538104618535822386937151570524391722805157 : ℚ) / 519229685853482762853049632922009600000000000000000000000000000000000000000000000000000000000000000000000000000000000000000000000000000000000000000000000000000000000000)
    rw [hfJ]
    exact hiJ
  · refine ⟨((9909491003868493999766600006269279125055162537858241380725987982479146786826681508689428731609643515225376912977153320023592921 : ℚ) / 396140812571321687967719751680000000000000000000000000000000000000000000000000000000000000000000000000000000000000000000000000), ?_, by rw [abs_lt]; exact ⟨by norm_num, by norm_num⟩⟩
    show TYPE_T.temperature_to_voltage 25 >>= TYPE_T.voltage_to_temperature
        = Except.ok ((9909491003868493999766600006269279125055162537858241380725987982479146786826681508689428731609643515225376912977153320023592921 : ℚ) / 396140812571321687967719751680000000000000000000000000000000000000000000000000000000000000000000000000000000000000000000000000)
    rw [hfT]
    exact hiT
  · refine ⟨((872044423114676280774019925110723661966470925133504530274666502159158257119080139703818742060740077904198428720162913615133454768709679971097054907721014853225810381137825367012952928563189 : ℚ) / 34844914372704098658649559801013064853094400000000000000000000000000000000000000000000000000000000000000000000000000000000000000000000000000000000000000000000000000000000000000000000000000), ?_, by rw [abs_lt]; exact ⟨by norm_num, by norm_num⟩⟩
    show TYPE_N.temperature_to_voltage 25 >>= TYPE_N.voltage_to_temperature
        = Except.ok ((872044423114676280774019925110723661966470925133504530274666502159158257119080139703818742060740077904198428720162913615133454768709679971097054907721014853225810381137825367012952928563189 : ℚ) / 34844914372704098658649559801013064853094400000000000000000000000000000000000000000000000000000000000000000000000000000000000000000000000000000000000000000000000000000000000000000000000000)
    rw [hfN]
    exact hiN
  · refine ⟨((2748802291026503777157284620998607480552328517528788484836897875329344614974299702055186019198951875477183977 : ℚ) / 5497558138880000000000000000000000000000000000000000000000000000000000000000000000000000000000000000000000), ?_, by rw [abs_lt]; exact ⟨by norm_num, by norm_num⟩⟩
    show TYPE_B.temperature_to_voltage 500 >>= TYPE_B.voltage_to_temperature
        = Except.ok ((2748802291026503777157284620998607480552328517528788484836897875329344614974299702055186019198951875477183977 : ℚ) / 5497558138880000000000000000000000000000000000000000000000000000000000000000000000000000000000000000000000)
    rw [hfB]
    exact hiB
  · refine ⟨((157775840023451016230703481440351437030796376228352227674877543863092764041755770320272267963058920580093944783451969914880165125702461546451856933246665173272935690953885091465119 : ℚ) / 788860905221011805411728565282786229673206435109023004770278930664062500000000000000000000000000000000000000000000000000000000000000000000000000000000000000000000000000000000000), ?_, by rw [abs_lt]; exact ⟨by norm_num, by norm_num⟩⟩
    show TYPE_R.temperature_to_voltage 200 >>= TYPE_R.voltage_to_temperature
        = Except.ok ((157775840023451016230703481440351437030796376228352227674877543863092764041755770320272267963058920580093944783451969914880165125702461546451856933246665173272935690953885091465119 : ℚ) / 788860905221011805411728565282786229673206435109023004770278930664062500000000000000000000000000000000000000000000000000000000000000000000000000000000000000000000000000000000000)
    rw [hfR]
    exact hiR
  · refine ⟨((211752775754665353240961639601833102026425350499977979114431102933658363376203187331179513275237924150777935657222881561393104837520056075683678689501 : ℚ) / 1058791184067875423835403125849552452564239501953125000000000000000000000000000000000000000000000000000000000000000000000000000000000000000000000000), ?_, by rw [abs_lt]; exact ⟨by norm_num, by norm_num⟩⟩
    show TYPE_S.temperature_to_voltage 200 >>= TYPE_S.voltage_to_temperature
        = Except.ok ((211752775754665353240961639601833102026425350499977979114431102933658363376203187331179513275237924150777935657222881561393104837520056075683678689501 : ℚ) / 1058791184067875423835403125849552452564239501953125000000000000000000000000000000000000000000000000000000000000000000000000000000000000000000000000)
    rw [hfS]
    exact hiS
